import Mathlib

/-!
Verification development for the some-test254-api movie catalog service.

The definitions below are a shallow embedding of the core of the service:
the title normalizers (`src/domain/normalize.ts` and the PL/pgSQL
`normalize_title` installed by the uniqueness migration), the relational
state (`movies` and `user_movies` tables together with the database trigger
that maintains `effective_normalized_title` and the per-user unique index),
the repository operations (`movies.repo.ts`, `userMovies.repo.ts`), the
service operations (`movies.service.ts`) and the OMDB cache layer
(`omdb.service.ts`).  Machine integers are modelled as `Int`/`Nat`,
timestamps as `Nat` milliseconds, SQL rows as structures and result sets as
lists in insertion order.  Fallible operations return `Except`, and
operations that write even on failure return their final state alongside
the `Except`.
-/

namespace MoviesApi

/-- ASCII lowercasing of a string, character by character.  All strings this
is applied to in the development are the output of one of the two
normalizers, which produce only ASCII letters and spaces, so ASCII folding
coincides with both JavaScript `toLowerCase` and SQL `LOWER` there. -/
def lowerString (s : String) : String := String.mk (s.data.map Char.toLower)

/-- The replacement step `rawTitle.replace(/[^A-Za-z ]/g, ' ')` of
`normalizeTitle` in `src/domain/normalize.ts`: every character that is not
an ASCII letter or a space becomes a single space. -/
def stripCharToSpace (c : Char) : Char := if c.isAlpha || c = ' ' then c else ' '

/-- Splits a character list into its maximal runs of non-space characters.
Models `.trim().replace(/\s+/g, ' ').split(' ')` (with the degenerate empty
word of the empty string dropped; it is mapped to the empty word and glued
back by `String.intercalate`, giving the same final string). -/
def splitWordsAux : List Char → List Char → List (List Char)
  | [], acc => if acc.isEmpty then [] else [acc.reverse]
  | c :: rest, acc =>
    if c = ' ' then
      if acc.isEmpty then splitWordsAux rest []
      else acc.reverse :: splitWordsAux rest []
    else splitWordsAux rest (c :: acc)

/-- The per-word step of `normalizeTitle`:
`word.charAt(0).toUpperCase() + word.slice(1).toLowerCase()`. -/
def capitalizeWord : List Char → List Char
  | [] => []
  | c :: rest => c.toUpper :: rest.map Char.toLower

/-- `normalizeTitle` from `src/domain/normalize.ts`: replace every character
that is not an ASCII letter or space by a space, trim and collapse
whitespace, capitalize each word. -/
def normalizeTitle (rawTitle : String) : String :=
  let replaced := rawTitle.data.map stripCharToSpace
  let words := splitWordsAux replaced []
  String.intercalate " " (words.map (fun w => String.mk (capitalizeWord w)))

/-- The PL/pgSQL function `normalize_title` installed by the uniqueness
migration (`part_006`): first `-` and `:` become spaces, then every other
character that is not an ASCII letter or space is removed (not replaced),
then trim, collapse and `initcap(lower(..))`.  This is the function the
database trigger uses to maintain `user_movies.effective_normalized_title`;
it differs from the TypeScript `normalizeTitle` on input characters outside
letters, spaces, colons and hyphens. -/
def sqlNormalizeTitle (rawTitle : String) : String :=
  let separated := rawTitle.data.map (fun c => if c = '-' || c = ':' then ' ' else c)
  let stripped := separated.filter (fun c => c.isAlpha || c = ' ')
  let words := splitWordsAux stripped []
  String.intercalate " " (words.map (fun w => String.mk (capitalizeWord w)))

/-- Numeric value of a list of ASCII digits (the `parseInt` of a digit run). -/
def digitsVal (ds : List Char) : Int :=
  ds.foldl (fun acc c => acc * 10 + ((c.toNat : Int) - 48)) 0

/-- First occurrence of four consecutive digits, as matched by the regex
`/(\d{4})/` in `parseYear`. -/
def firstFourDigits : List Char → Option (List Char)
  | a :: b :: c :: d :: rest =>
    if a.isDigit && b.isDigit && c.isDigit && d.isDigit then some [a, b, c, d]
    else firstFourDigits (b :: c :: d :: rest)
  | _ => none

/-- `parseYear` from `src/domain/normalize.ts`: first 4-digit token, kept only
inside 1888–2100. -/
def parseYear (year : String) : Option Int :=
  if year = "" || year = "N/A" then none
  else
    match firstFourDigits year.data with
    | none => none
    | some ds =>
      let n := digitsVal ds
      if 1888 ≤ n ∧ n ≤ 2100 then some n else none

/-- First maximal run of digits, as matched by the regex `/(\d+)/` in
`parseRuntime`. -/
def firstDigitRun : List Char → Option (List Char)
  | [] => none
  | c :: rest =>
    if c.isDigit then some (c :: rest.takeWhile Char.isDigit)
    else firstDigitRun rest

/-- `parseRuntime` from `src/domain/normalize.ts`. -/
def parseRuntime (runtime : String) : Option Int :=
  if runtime = "" || runtime = "N/A" then none
  else (firstDigitRun runtime.data).map digitsVal

/-- JavaScript `String.prototype.trim`: strip leading and trailing
whitespace. -/
def jsTrim (s : String) : String :=
  String.mk (((s.data.dropWhile Char.isWhitespace).reverse.dropWhile Char.isWhitespace).reverse)

/-- JavaScript `split(',')`: cut at every comma, keeping empty fragments. -/
def splitOnComma : List Char → List (List Char)
  | [] => [[]]
  | c :: rest =>
    if c = ',' then [] :: splitOnComma rest
    else
      match splitOnComma rest with
      | [] => [[c]]
      | w :: ws => (c :: w) :: ws

/-- `parseList` from `src/domain/normalize.ts`: comma-split, trim each item,
drop empties, `none` when nothing remains or on the `N/A` sentinel. -/
def parseList (list : String) : Option (List String) :=
  if list = "" || list = "N/A" then none
  else
    let items := ((splitOnComma list.data).map (fun cs => jsTrim (String.mk cs))).filter (· ≠ "")
    if items.isEmpty then none else some items

/-! ## Relational state

The `movies` and `user_movies` tables after the migrations (the soft-delete
migration and the per-user uniqueness migration `part_006`, which installs
the `normalize_title` SQL function, the `trg_user_movies_effective_title`
trigger and the unique index `ux_user_movies_effective_title` on
`(user_id, lower(effective_normalized_title))`).  Row ids and user ids are
`Nat`, timestamps `Nat` milliseconds, `text[]` columns `List String`. -/

/-- The `source` column of `movies`: `'omdb' | 'custom'`. -/
inductive Source where
  | omdb
  | custom
deriving DecidableEq, Repr

/-- A row of the `movies` table. -/
structure MovieRow where
  id : Nat
  omdbId : Option String
  title : String
  normalizedTitle : String
  year : Option Int
  runtimeMinutes : Option Int
  genre : Option (List String)
  director : Option (List String)
  poster : Option String
  source : Source
  createdByUserId : Option Nat
  isDeleted : Bool
  deletedAt : Option Nat
  createdAt : Nat
  updatedAt : Nat
deriving DecidableEq, Repr

/-- A row of the `user_movies` table.  `effectiveNormalizedTitle` is the
trigger-maintained derived column. -/
structure UserMovieRow where
  userId : Nat
  movieId : Nat
  isFavorite : Bool
  overriddenTitle : Option String
  overriddenYear : Option Int
  overriddenRuntimeMinutes : Option Int
  overriddenGenre : Option (List String)
  overriddenDirector : Option (List String)
  effectiveNormalizedTitle : String
  createdAt : Nat
  updatedAt : Nat
deriving DecidableEq, Repr

/-- The database state: both tables (rows in insertion order, result sets
reading them front to back) plus the id sequence for `movies`. -/
structure DB where
  movies : List MovieRow
  userMovies : List UserMovieRow
  nextId : Nat
deriving DecidableEq, Repr

/-- Error outcomes surfaced by the service layer.  `conflict` is the
`'A movie with the same name already exists in your collection.'` error the
controller maps to HTTP 409; `uniqueViolation` is a raw storage-level
unique-constraint error (the controller does not recognize it as a 409);
`movieMissing` is the `'Movie with id .. not found'` error thrown inside
`UserMoviesRepository.create`; `queryTooShort` is the
`'Query must be at least 1 character'` error of the search entry points. -/
inductive SvcError where
  | validation
  | conflict
  | uniqueViolation
  | movieMissing
  | queryTooShort
deriving DecidableEq, Repr

/-- The value `UserMoviesRepository.create`/`upsert` computes in application
code for `effective_normalized_title`:
`title.toLowerCase().trim().replace(/[^\w\s]/g, '').replace(/\s+/g, ' ').trim()`.
The insert passes it to the database, but the BEFORE INSERT trigger
`trg_user_movies_effective_title` immediately overwrites the column with
`normalize_title(COALESCE(overridden_title, movies.title))`, so this value
is never the one stored. -/
def appEffectiveNormalizedTitle (title : String) : String :=
  let lowered := title.data.map Char.toLower
  let stripped := lowered.filter (fun c => c.isAlpha || c.isDigit || c = '_' || c.isWhitespace)
  String.intercalate " "
    ((splitWordsAux (stripped.map (fun c => if c.isWhitespace then ' ' else c)) []).map String.mk)

namespace UserMoviesRepository

/-- `UserMoviesRepository.findByUserAndMovie`:
`SELECT * FROM user_movies WHERE user_id = $1 AND movie_id = $2`. -/
def findByUserAndMovie (db : DB) (userId movieId : Nat) : Option UserMovieRow :=
  db.userMovies.find? (fun um => um.userId == userId && um.movieId == movieId)

/-- `UserMoviesRepository.findByUserAndEffectiveTitle`:
`SELECT * FROM user_movies WHERE user_id = $1 AND
LOWER(effective_normalized_title) = LOWER($2)`.  Note: no `is_deleted`
filter on either the link or its movie. -/
def findByUserAndEffectiveTitle (db : DB) (userId : Nat) (eff : String) : Option UserMovieRow :=
  db.userMovies.find?
    (fun um => um.userId == userId &&
      lowerString um.effectiveNormalizedTitle == lowerString eff)

/-- `UserMoviesRepository.create`: looks up the movie title (no `is_deleted`
filter), then inserts the link.  The BEFORE INSERT trigger assigns
`effective_normalized_title := normalize_title(COALESCE(overridden_title,
movies.title))` (the application-computed `appEffectiveNormalizedTitle`
parameter is overwritten), and the insert is checked against the
`(user_id, movie_id)` primary key and the unique index
`ux_user_movies_effective_title` on `(user_id,
lower(effective_normalized_title))`. -/
def create (db : DB) (userId movieId : Nat) (isFavorite : Bool) (now : Nat) :
    Except SvcError (UserMovieRow × DB) :=
  match db.movies.find? (fun m => m.id == movieId) with
  | none => .error .movieMissing
  | some m =>
    let eff := sqlNormalizeTitle m.title
    if db.userMovies.any (fun um => um.userId == userId && um.movieId == movieId) then
      .error .uniqueViolation
    else if db.userMovies.any
        (fun um => um.userId == userId &&
          lowerString um.effectiveNormalizedTitle == lowerString eff) then
      .error .uniqueViolation
    else
      let row : UserMovieRow :=
        { userId := userId, movieId := movieId, isFavorite := isFavorite,
          overriddenTitle := none, overriddenYear := none,
          overriddenRuntimeMinutes := none, overriddenGenre := none,
          overriddenDirector := none, effectiveNormalizedTitle := eff,
          createdAt := now, updatedAt := now }
      .ok (row, { db with userMovies := db.userMovies ++ [row] })

/-- The patch accepted by `UserMoviesRepository.updateOverrides`: each field
is absent (`none`), or present with a value that may itself be SQL NULL
(`some none`). -/
structure OverridePatch where
  title : Option (Option String) := none
  year : Option (Option Int) := none
  runtimeMinutes : Option (Option Int) := none
  genre : Option (Option (List String)) := none
  director : Option (Option (List String)) := none
deriving DecidableEq, Repr

/-- True when the patch carries no field (`setParts.length === 0`). -/
def OverridePatch.isEmpty (p : OverridePatch) : Bool :=
  p.title.isNone && p.year.isNone && p.runtimeMinutes.isNone &&
    p.genre.isNone && p.director.isNone

/-- The row an override update writes: the patched override columns,
`updated_at = now()`, and the trigger-recomputed
`effective_normalized_title` from the new override title (or the movie's
current raw title). -/
def overridesRow (old : UserMovieRow) (m : MovieRow) (p : OverridePatch) (now : Nat) :
    UserMovieRow :=
  { old with
    overriddenTitle := p.title.getD old.overriddenTitle,
    overriddenYear := p.year.getD old.overriddenYear,
    overriddenRuntimeMinutes := p.runtimeMinutes.getD old.overriddenRuntimeMinutes,
    overriddenGenre := p.genre.getD old.overriddenGenre,
    overriddenDirector := p.director.getD old.overriddenDirector,
    effectiveNormalizedTitle :=
      sqlNormalizeTitle ((p.title.getD old.overriddenTitle).getD m.title),
    updatedAt := now }

/-- `UserMoviesRepository.updateOverrides`: dynamic `UPDATE user_movies SET
.. WHERE user_id = $i AND movie_id = $j RETURNING *` (poster has no override
column).  The BEFORE UPDATE trigger recomputes
`effective_normalized_title` from the new `overridden_title` and the
movie's current title, and the unique index rejects the update when the
recomputed key collides with a different link of the same user. -/
def updateOverrides (db : DB) (userId movieId : Nat) (p : OverridePatch) (now : Nat) :
    Except SvcError (Option UserMovieRow × DB) :=
  if p.isEmpty then .ok (findByUserAndMovie db userId movieId, db)
  else
    match findByUserAndMovie db userId movieId with
    | none => .ok (none, db)
    | some old =>
      match db.movies.find? (fun m => m.id == movieId) with
      | none => .error .movieMissing
      | some m =>
        if db.userMovies.any
            (fun um => um.userId == userId && !(um.movieId == movieId) &&
              lowerString um.effectiveNormalizedTitle ==
                lowerString (overridesRow old m p now).effectiveNormalizedTitle) then
          .error .uniqueViolation
        else
          .ok (some (overridesRow old m p now),
            { db with userMovies := (db.userMovies.map
                (fun um => if um.userId == userId && um.movieId == movieId then
                  overridesRow old m p now else um)) })

/-- The row a favorite update writes: the new flag, `updated_at = now()`,
and the trigger-rederived `effective_normalized_title`. -/
def favoriteRow (old : UserMovieRow) (m : MovieRow) (isFavorite : Bool) (now : Nat) :
    UserMovieRow :=
  { old with
    isFavorite := isFavorite,
    effectiveNormalizedTitle := sqlNormalizeTitle (old.overriddenTitle.getD m.title),
    updatedAt := now }

/-- `UserMoviesRepository.setFavorite`: `UPDATE user_movies SET is_favorite
= $3, updated_at = now() WHERE user_id = $1 AND movie_id = $2 RETURNING *`.
The BEFORE UPDATE trigger re-derives `effective_normalized_title` from the
stored override and the movie's current title, and the unique index is
re-checked. -/
def setFavorite (db : DB) (userId movieId : Nat) (isFavorite : Bool) (now : Nat) :
    Except SvcError (Option UserMovieRow × DB) :=
  match findByUserAndMovie db userId movieId with
  | none => .ok (none, db)
  | some old =>
    match db.movies.find? (fun m => m.id == movieId) with
    | none => .error .movieMissing
    | some m =>
      if db.userMovies.any
          (fun um => um.userId == userId && !(um.movieId == movieId) &&
            lowerString um.effectiveNormalizedTitle ==
              lowerString (favoriteRow old m isFavorite now).effectiveNormalizedTitle) then
        .error .uniqueViolation
      else
        .ok (some (favoriteRow old m isFavorite now),
          { db with userMovies := (db.userMovies.map
              (fun um => if um.userId == userId && um.movieId == movieId then
                favoriteRow old m isFavorite now else um)) })

/-- `UserMoviesRepository.delete`:
`DELETE FROM user_movies WHERE user_id = $1 AND movie_id = $2`; returns
whether a row was removed. -/
def delete (db : DB) (userId movieId : Nat) : Bool × DB :=
  (db.userMovies.any (fun um => um.userId == userId && um.movieId == movieId),
    { db with userMovies :=
        db.userMovies.filter (fun um => !(um.userId == userId && um.movieId == movieId)) })

end UserMoviesRepository

namespace MoviesRepository

/-- `MoviesRepository.findById`:
`SELECT * FROM movies WHERE id = $1 AND is_deleted = false`. -/
def findById (db : DB) (id : Nat) : Option MovieRow :=
  db.movies.find? (fun m => m.id == id && !m.isDeleted)

/-- `MoviesRepository.findByNormalizedTitle`:
`SELECT * FROM movies WHERE lower(normalized_title) = lower($1) AND
is_deleted = false`. -/
def findByNormalizedTitle (db : DB) (normalizedTitle : String) : Option MovieRow :=
  db.movies.find?
    (fun m => lowerString m.normalizedTitle == lowerString normalizedTitle && !m.isDeleted)

/-- The column values `MoviesRepository.create` inserts. -/
structure MovieCreateData where
  title : String
  normalizedTitle : String
  year : Option Int := none
  runtimeMinutes : Option Int := none
  genre : Option (List String) := none
  director : Option (List String) := none
  poster : Option String := none
  source : Source
  omdbId : Option String := none
  createdByUserId : Option Nat := none
deriving DecidableEq, Repr

/-- `MoviesRepository.create`: plain `INSERT INTO movies .. RETURNING *`
(the global unique index on `normalized_title` was dropped by the
uniqueness migration, so no constraint applies here). -/
def create (db : DB) (d : MovieCreateData) (now : Nat) : MovieRow × DB :=
  let row : MovieRow :=
    { id := db.nextId, omdbId := d.omdbId, title := d.title,
      normalizedTitle := d.normalizedTitle, year := d.year,
      runtimeMinutes := d.runtimeMinutes, genre := d.genre,
      director := d.director, poster := d.poster, source := d.source,
      createdByUserId := d.createdByUserId, isDeleted := false,
      deletedAt := none, createdAt := now, updatedAt := now }
  (row, { db with movies := db.movies ++ [row], nextId := db.nextId + 1 })

/-- The patch accepted by `MoviesRepository.update`.  `title` and
`normalizedTitle` are plain strings when present; the other columns may be
set to SQL NULL.  There is deliberately no poster field: the source skips
it (`poster is immutable - cannot be updated`). -/
structure MovieUpdateData where
  title : Option String := none
  normalizedTitle : Option String := none
  year : Option (Option Int) := none
  runtimeMinutes : Option (Option Int) := none
  genre : Option (Option (List String)) := none
  director : Option (Option (List String)) := none
deriving DecidableEq, Repr

/-- True when the patch carries no field (`setParts.length === 0`). -/
def MovieUpdateData.isEmpty (d : MovieUpdateData) : Bool :=
  d.title.isNone && d.normalizedTitle.isNone && d.year.isNone &&
    d.runtimeMinutes.isNone && d.genre.isNone && d.director.isNone

/-- The row produced by `MoviesRepository.update`'s SET list on one matched
row: provided columns overwritten, `updated_at = now()`, poster untouched. -/
def applyMovieUpdate (d : MovieUpdateData) (m : MovieRow) (now : Nat) : MovieRow :=
  { m with
    title := d.title.getD m.title,
    normalizedTitle := d.normalizedTitle.getD m.normalizedTitle,
    year := d.year.getD m.year,
    runtimeMinutes := d.runtimeMinutes.getD m.runtimeMinutes,
    genre := d.genre.getD m.genre,
    director := d.director.getD m.director,
    updatedAt := now }

/-- `MoviesRepository.update`: `UPDATE movies SET .. WHERE id = $i AND
source = 'custom' AND created_by_user_id = $j RETURNING *` (note: no
`is_deleted` filter here); an empty patch falls back to `findById`. -/
def update (db : DB) (movieId userId : Nat) (d : MovieUpdateData) (now : Nat) :
    Option MovieRow × DB :=
  if d.isEmpty then (findById db movieId, db)
  else
    let wher := fun (m : MovieRow) =>
      m.id == movieId && decide (m.source = Source.custom) && m.createdByUserId == some userId
    match db.movies.find? wher with
    | none => (none, db)
    | some m =>
      (some (applyMovieUpdate d m now),
        { db with movies := (db.movies.map
            (fun x => if wher x then applyMovieUpdate d x now else x)) })

/-- `MoviesRepository.delete`: `UPDATE movies SET is_deleted = true,
deleted_at = now() WHERE id = $1 AND source = 'custom' AND
created_by_user_id = $3 AND is_deleted = false`; returns whether a row was
affected.  Only the `movies` row changes — the `user_movies` rows of the
movie are not touched. -/
def delete (db : DB) (movieId userId : Nat) (now : Nat) : Bool × DB :=
  let wher := fun (m : MovieRow) =>
    m.id == movieId && decide (m.source = Source.custom) &&
      m.createdByUserId == some userId && !m.isDeleted
  (db.movies.any wher,
    { db with movies := (db.movies.map
        (fun x => if wher x then { x with isDeleted := true, deletedAt := some now } else x)) })

/-- The column values of the OMDB upsert
(`MoviesRepository.upsertFromOmdb`). -/
structure OmdbUpsertData where
  omdbId : String
  title : String
  normalizedTitle : String
  year : Option Int
  runtimeMinutes : Option Int
  genre : Option (List String)
  director : Option (List String)
deriving DecidableEq, Repr

/-- The `ON CONFLICT (omdb_id) DO UPDATE` SET list shared by
`MoviesRepository.upsertFromOmdb` and `OMDBService.cacheMovie`: it
overwrites the derived fields and bumps `updated_at`, and touches neither
`id`, nor `poster`, nor `source`, nor `created_by_user_id`. -/
def applyOmdbConflictUpdate (d : OmdbUpsertData) (m : MovieRow) (now : Nat) : MovieRow :=
  { m with
    title := d.title, normalizedTitle := d.normalizedTitle, year := d.year,
    runtimeMinutes := d.runtimeMinutes, genre := d.genre,
    director := d.director, updatedAt := now }

/-- `MoviesRepository.upsertFromOmdb`: `INSERT INTO movies (..) VALUES (..,
'omdb') ON CONFLICT (omdb_id) DO UPDATE SET .. RETURNING *`.  The insert
column list carries no poster, so a fresh upstream row has `poster NULL`. -/
def upsertFromOmdb (db : DB) (d : OmdbUpsertData) (now : Nat) : MovieRow × DB :=
  match db.movies.find? (fun m => m.omdbId == some d.omdbId) with
  | some m =>
    (applyOmdbConflictUpdate d m now,
      { db with movies := (db.movies.map
          (fun x => if x.omdbId == some d.omdbId then applyOmdbConflictUpdate d x now else x)) })
  | none =>
    let row : MovieRow :=
      { id := db.nextId, omdbId := some d.omdbId, title := d.title,
        normalizedTitle := d.normalizedTitle, year := d.year,
        runtimeMinutes := d.runtimeMinutes, genre := d.genre,
        director := d.director, poster := none, source := .omdb,
        createdByUserId := none, isDeleted := false, deletedAt := none,
        createdAt := now, updatedAt := now }
    (row, { db with movies := db.movies ++ [row], nextId := db.nextId + 1 })

/-- Whether the first list is an initial segment of the second. -/
def prefixMatches : List Char → List Char → Bool
  | [], _ => true
  | _ :: _, [] => false
  | c :: cs, h :: hs => c == h && prefixMatches cs hs

/-- Whether the first list occurs contiguously inside the second. -/
def infixMatches (needle : List Char) : List Char → Bool
  | [] => needle.isEmpty
  | h :: hs => prefixMatches needle (h :: hs) || infixMatches needle hs

/-- Case-insensitive containment, modelling `title ILIKE '%query%'` for
queries without LIKE metacharacters (ASCII case folding; the titles and
queries in this development are ASCII). -/
def containsCI (hay needle : String) : Bool :=
  infixMatches (lowerString needle).data (lowerString hay).data

/-- The `ORDER BY sim_score DESC, created_at DESC` comparison used by
`searchByTitle`: `a` may precede `b` when `a`'s similarity is larger, or
equal with `a` created no earlier. -/
def searchOrder (sim : String → String → ℚ) (query : String) (a b : MovieRow) : Prop :=
  sim b.title query < sim a.title query ∨
    (sim a.title query = sim b.title query ∧ b.createdAt ≤ a.createdAt)

instance searchOrderDec (sim : String → String → ℚ) (query : String) :
    DecidableRel (searchOrder sim query) := by
  intro a b
  unfold searchOrder
  infer_instance

/-- `MoviesRepository.searchByTitle`: returns `[]` for queries shorter than
2 characters; otherwise selects `source = 'custom' AND is_deleted = false
AND (title ILIKE '%query%' OR similarity(title, query) > 0.3)` ordered by
similarity then creation recency, limited.  `similarity` is the `pg_trgm`
SQL function, an external collaborator of the store, so it is a parameter
here.  Note: there is no `created_by_user_id` filter — the query scans
every user's custom movies. -/
def searchByTitle (db : DB) (query : String) (limit : Nat) (sim : String → String → ℚ) :
    List MovieRow :=
  if query.length < 2 then []
  else
    ((db.movies.filter
        (fun m => decide (m.source = Source.custom) && !m.isDeleted &&
          (containsCI m.title query || decide ((3 : ℚ)/10 < sim m.title query)))).insertionSort
      (searchOrder sim query)).take limit

end MoviesRepository

/-! ## Override merge view (`UserMoviesRepository.getUserMovies`) -/

/-- The raw override values exposed in the `overrides` substructure of a
merged row. -/
structure OverrideView where
  title : Option String
  year : Option Int
  runtimeMinutes : Option Int
  genre : Option (List String)
  director : Option (List String)
deriving DecidableEq, Repr

/-- The merged user-facing shape produced by `getUserMovies` (the
`MovieWithUserData` domain type). -/
structure MovieWithUserData where
  id : Nat
  title : String
  year : Option Int
  runtimeMinutes : Option Int
  genre : Option (List String)
  director : Option (List String)
  poster : Option String
  isFavorite : Bool
  overrides : OverrideView
  source : Source
deriving DecidableEq, Repr

/-- The per-row merge computed by the SELECT list of
`UserMoviesRepository.getUserMovies`: every overridable column is
`COALESCE(um.overridden_field, m.field)`, poster is always `m.poster`,
`is_favorite` comes from the link, and the raw override columns are
returned verbatim in `overrides`. -/
def mergeView (m : MovieRow) (um : UserMovieRow) : MovieWithUserData :=
  { id := m.id,
    title := um.overriddenTitle.getD m.title,
    year := um.overriddenYear <|> m.year,
    runtimeMinutes := um.overriddenRuntimeMinutes <|> m.runtimeMinutes,
    genre := um.overriddenGenre <|> m.genre,
    director := um.overriddenDirector <|> m.director,
    poster := m.poster,
    isFavorite := um.isFavorite,
    overrides :=
      { title := um.overriddenTitle, year := um.overriddenYear,
        runtimeMinutes := um.overriddenRuntimeMinutes,
        genre := um.overriddenGenre, director := um.overriddenDirector },
    source := m.source }

/-- `UserMoviesRepository.getUserMovies`: the user's links (optionally only
favorites) joined on non-deleted movies, ordered by most recently updated
link first, each row passed through `mergeView`. -/
def getUserMovies (db : DB) (userId : Nat) (favoritesOnly : Bool) : List MovieWithUserData :=
  let links := db.userMovies.filter
    (fun um => um.userId == userId && (!favoritesOnly || um.isFavorite))
  let joined := links.filterMap
    (fun um => (db.movies.find? (fun m => m.id == um.movieId && !m.isDeleted)).map
      (fun m => (m, um)))
  (joined.insertionSort (fun a b => b.2.updatedAt ≤ a.2.updatedAt)).map
    (fun x => mergeView x.1 x.2)

/-! ## Service layer (`movies.service.ts`, second revision in `part_011`) -/

namespace MoviesService

/-- A create request (`CreateMovieRequest`). -/
structure CreateMovieRequest where
  title : String
  year : Int
  runtimeMinutes : Int
  genre : List String
  director : List String
  poster : Option String := none
deriving DecidableEq, Repr

/-- The checks of `createMovieSchema`: title at least 3 characters (checked
before the `.trim()` transform), year 1888–2100, runtime at least 1, at
least one genre and one director, every genre and director entry at least
3 characters.  The `z.string().url()` check on the optional poster is an
external validator and is not modelled. -/
def validCreate (d : CreateMovieRequest) : Bool :=
  3 ≤ d.title.length && decide (1888 ≤ d.year) && decide (d.year ≤ 2100) &&
    decide (1 ≤ d.runtimeMinutes) &&
    !d.genre.isEmpty && d.genre.all (fun g => 3 ≤ g.length) &&
    !d.director.isEmpty && d.director.all (fun g => 3 ≤ g.length)

/-- `MoviesService.createCustomMovie`: validate, normalize the title with
the TypeScript `normalizeTitle`, reject with the Conflict error when
`findByUserAndEffectiveTitle` finds any link of the user, then insert the
movie and afterwards its initial link as two separate statements (no
transaction): when the link insert fails the already-inserted movie row
stays.  (`validated.poster || null` collapses an empty poster string to
NULL.) -/
def createCustomMovie (db : DB) (userId : Nat) (d : CreateMovieRequest) (now : Nat) :
    Except SvcError MovieRow × DB :=
  if !validCreate d then (.error .validation, db)
  else
    let title := jsTrim d.title
    let normalizedTitle := normalizeTitle title
    match UserMoviesRepository.findByUserAndEffectiveTitle db userId normalizedTitle with
    | some _ => (.error .conflict, db)
    | none =>
      let created := MoviesRepository.create db
        { title := title, normalizedTitle := normalizedTitle,
          year := some d.year, runtimeMinutes := some d.runtimeMinutes,
          genre := some d.genre, director := some d.director,
          poster := (if d.poster == some "" then none else d.poster),
          source := .custom, createdByUserId := some userId } now
      match UserMoviesRepository.create created.2 userId created.1.id false now with
      | .error e => (.error e, created.2)
      | .ok x => (.ok created.1, x.2)

/-- An update request (`UpdateMovieRequest`); `poster` may be present in
the incoming body but `updateMovieSchema` strips it (poster is
immutable). -/
structure UpdateMovieRequest where
  title : Option String := none
  year : Option Int := none
  runtimeMinutes : Option Int := none
  genre : Option (List String) := none
  director : Option (List String) := none
  poster : Option String := none
deriving DecidableEq, Repr

/-- The checks of `updateMovieSchema` on the provided fields. -/
def validUpdate (p : UpdateMovieRequest) : Bool :=
  (p.title.all (fun t => 3 ≤ t.length)) &&
    (p.year.all (fun y => decide (1888 ≤ y) && decide (y ≤ 2100))) &&
    (p.runtimeMinutes.all (fun r => decide (1 ≤ r))) &&
    (p.genre.all (fun g => !g.isEmpty && g.all (fun s => 3 ≤ s.length))) &&
    (p.director.all (fun g => !g.isEmpty && g.all (fun s => 3 ≤ s.length)))

/-- The repository patch `{ ...validated }` built in the owner branch of
`updateMovie` (before `normalizedTitle` is possibly added). -/
def toMovieUpdateData (title : Option String) (p : UpdateMovieRequest) :
    MoviesRepository.MovieUpdateData :=
  { title := title, normalizedTitle := none, year := p.year.map some,
    runtimeMinutes := p.runtimeMinutes.map some, genre := p.genre.map some,
    director := p.director.map some }

/-- The override patch `updateOverrides(userId, movieId, validated)`
receives in the non-owner branch of `updateMovie`. -/
def toOverridePatch (title : Option String) (p : UpdateMovieRequest) :
    UserMoviesRepository.OverridePatch :=
  { title := title.map some, year := p.year.map some,
    runtimeMinutes := p.runtimeMinutes.map some, genre := p.genre.map some,
    director := p.director.map some }

/-- The owner branch's repository call in `updateMovie` (the source
repeats this `moviesRepo.update` + null-check block verbatim in each of
its three paths; it is factored out here once): a matched update returns
the updated movie with `isOverride = false`, no match returns `null`. -/
def ownerUpdate (db : DB) (userId movieId : Nat) (d : MoviesRepository.MovieUpdateData)
    (now : Nat) : Except SvcError (Option (MovieRow × Bool)) × DB :=
  match MoviesRepository.update db movieId userId d now with
  | (none, db2) => (.ok none, db2)
  | (some updated, db2) => (.ok (some (updated, false)), db2)

/-- `MoviesService.updateMovie`: resolve the movie through the soft-delete
filter; for a custom movie owned by the caller, recompute
`normalized_title` when a (truthy) title is supplied, re-check the
per-user effective-title uniqueness excluding the edited movie, and update
the canonical row; otherwise re-check uniqueness of a supplied title the
same way and write the patch as per-user overrides.  Returns the movie and
an `isOverride` flag, `none` when the movie is absent or the owner update
matched no row. -/
def updateMovie (db : DB) (userId movieId : Nat) (p : UpdateMovieRequest) (now : Nat) :
    Except SvcError (Option (MovieRow × Bool)) × DB :=
  if !validUpdate p then (.error .validation, db)
  else
    match MoviesRepository.findById db movieId with
    | none => (.ok none, db)
    | some movie =>
      if movie.source = Source.custom ∧ movie.createdByUserId = some userId then
        match p.title.map jsTrim with
        | some t =>
          if t ≠ "" then
            if ((UserMoviesRepository.findByUserAndEffectiveTitle db userId
                (normalizeTitle t)).any (fun ex => ex.movieId != movieId)) then
              (.error .conflict, db)
            else
              ownerUpdate db userId movieId
                { toMovieUpdateData (some t) p with
                  normalizedTitle := some (normalizeTitle t) } now
          else ownerUpdate db userId movieId (toMovieUpdateData (some t) p) now
        | none => ownerUpdate db userId movieId (toMovieUpdateData none p) now
      else
        if (match p.title.map jsTrim with
            | some t =>
              t != "" &&
                ((UserMoviesRepository.findByUserAndEffectiveTitle db userId
                  (normalizeTitle t)).any (fun ex => ex.movieId != movieId))
            | none => false : Bool) then
          (.error .conflict, db)
        else
          match UserMoviesRepository.updateOverrides db userId movieId
              (toOverridePatch (p.title.map jsTrim) p) now with
          | .error e => (.error e, db)
          | .ok x => (.ok (some (movie, true)), x.2)

/-- `MoviesService.deleteMovie`: soft-delete a custom movie owned by the
caller, otherwise remove just the caller's link. -/
def deleteMovie (db : DB) (userId movieId : Nat) (now : Nat) : Bool × DB :=
  match MoviesRepository.findById db movieId with
  | none => (false, db)
  | some movie =>
    if movie.source = Source.custom ∧ movie.createdByUserId = some userId then
      MoviesRepository.delete db movieId userId now
    else
      UserMoviesRepository.delete db userId movieId

/-- `MoviesService.setFavorite`: update the flag in place when the link
exists; otherwise resolve the movie, reject with the Conflict error when
the user already has a link matching `normalizeTitle(movie.title)`, and
create the link. -/
def setFavorite (db : DB) (userId movieId : Nat) (isFavorite : Bool) (now : Nat) :
    Except SvcError Bool × DB :=
  match UserMoviesRepository.findByUserAndMovie db userId movieId with
  | some _ =>
    match UserMoviesRepository.setFavorite db userId movieId isFavorite now with
    | .error e => (.error e, db)
    | .ok x => (.ok x.1.isSome, x.2)
  | none =>
    match MoviesRepository.findById db movieId with
    | none => (.ok false, db)
    | some movie =>
      let normalizedTitle := normalizeTitle movie.title
      match UserMoviesRepository.findByUserAndEffectiveTitle db userId normalizedTitle with
      | some _ => (.error .conflict, db)
      | none =>
        match UserMoviesRepository.create db userId movieId isFavorite now with
        | .error e => (.error e, db)
        | .ok x => (.ok true, x.2)

/-- The page shape an upstream `omdbService.searchMovies` call resolves to.
The upstream service is an external collaborator of the hybrid search, so
its outcome is a parameter. -/
structure SearchPage where
  items : List MovieRow
  total : Nat
deriving DecidableEq, Repr

/-- The result shape of `searchMoviesHybrid`. -/
structure HybridResult where
  items : List MovieRow
  page : Nat
  total : Nat
deriving DecidableEq, Repr

/-- `MoviesService.searchMoviesHybrid`: rejects queries below 1 character;
without custom inclusion returns the upstream page unchanged; otherwise
prepends `searchByTitle(query, 10)` over the custom movies and drops every
upstream item whose raw title equals (case-insensitively) some custom
result's title, reporting `total` as the upstream total plus the custom
count.  Note: the function receives no caller identity. -/
def searchMoviesHybrid (db : DB) (query : String) (page : Nat) (includeCustom : Bool)
    (omdbResults : SearchPage) (sim : String → String → ℚ) :
    Except SvcError HybridResult :=
  if query.length < 1 then .error .queryTooShort
  else if !includeCustom then
    .ok { items := omdbResults.items, page := page, total := omdbResults.total }
  else
    let customMovies := MoviesRepository.searchByTitle db query 10 sim
    let combined := customMovies ++ omdbResults.items.filter
      (fun o => !(customMovies.any (fun c => lowerString c.title == lowerString o.title)))
    .ok { items := combined, page := page, total := omdbResults.total + customMovies.length }

end MoviesService

/-! ## OMDB cache layer (`omdb.service.ts`) -/

namespace OMDBService

/-- The fields of an upstream detail response (`OMDBMovieDetails`) the
cache layer reads; `Response` is the upstream's `'True' | 'False'` status
string. -/
structure OMDBMovieDetails where
  imdbID : String
  Title : String
  Year : String
  Runtime : String
  Genre : String
  Director : String
  Response : String
deriving DecidableEq, Repr

/-- `maxRetries = 2` in `OMDBService`. -/
def maxRetries : Nat := 2

/-- `OMDBService.fetchWithRetry`: the network is modelled as a map from
attempt number to that attempt's outcome (`.error` for a thrown fetch
failure or timeout).  With `remaining` retries left, a failed attempt is
retried on the next attempt number; with none left the failure
propagates.  The exponential backoff delays do not affect the value. -/
def fetchWithRetry (responses : Nat → Except Unit OMDBMovieDetails) :
    Nat → Nat → Except Unit OMDBMovieDetails
  | attempt, 0 => responses attempt
  | attempt, remaining + 1 =>
    match responses attempt with
    | .ok d => .ok d
    | .error _ => fetchWithRetry responses (attempt + 1) remaining

/-- `OMDBService.getCachedMovie`:
`SELECT * FROM movies WHERE omdb_id = $1` (no `is_deleted` filter).  The
source maps the row to a `Movie` without its poster and soft-delete
columns; the model keeps the full row, which only adds information. -/
def getCachedMovie (db : DB) (omdbId : String) : Option MovieRow :=
  db.movies.find? (fun m => m.omdbId == some omdbId)

/-- `OMDBService.isCacheFresh`: fresh iff `now - updatedAt < ttlMs`
(`ttlMs = CACHE_TTL_HOURS * 60 * 60 * 1000`, configuration supplied from
the environment). -/
def isCacheFresh (now updatedAt ttlMs : Nat) : Bool :=
  (now : Int) - (updatedAt : Int) < (ttlMs : Int)

/-- `OMDBService.convertOMDBToMovie`: year, runtime and list parsing plus
title normalization; always `source = 'omdb'`, no owner.  The insert
column list of the cache upsert carries no poster. -/
def convertOMDBToMovie (d : OMDBMovieDetails) : MoviesRepository.OmdbUpsertData :=
  { omdbId := d.imdbID, title := d.Title,
    normalizedTitle := normalizeTitle d.Title, year := parseYear d.Year,
    runtimeMinutes := parseRuntime d.Runtime, genre := parseList d.Genre,
    director := parseList d.Director }

/-- `OMDBService.cacheMovie`: `INSERT .. ON CONFLICT (omdb_id) DO UPDATE
SET ..` with the same SET list as `MoviesRepository.upsertFromOmdb`
(derived fields and `updated_at`; never the id, poster, source or owner);
a fresh row is inserted with `source = 'omdb'`, no owner and no poster. -/
def cacheMovie (db : DB) (d : MoviesRepository.OmdbUpsertData) (now : Nat) : DB :=
  (MoviesRepository.upsertFromOmdb db d now).2

/-- The outcome of one `getMovieDetailsAndCache` call: the returned movie
(or `null`), the database afterwards, and how many upstream detail lookups
(`fetchWithRetry` invocations, counting one per logical call) were
issued. -/
structure FetchOutcome where
  result : Option MovieRow
  db : DB
  detailCalls : Nat
deriving DecidableEq, Repr

/-- The fetch-and-cache path of `getMovieDetailsAndCache` (cache miss or
stale): fetch with retries; a thrown failure is caught and yields `null`
with the database untouched; an upstream `'False'` response yields `null`
with the database untouched; otherwise convert, upsert, and re-read the
cached row. -/
def fetchAndCache (db : DB) (responses : Nat → Except Unit OMDBMovieDetails)
    (imdbId : String) (now : Nat) : FetchOutcome :=
  match fetchWithRetry responses 0 maxRetries with
  | .error _ => { result := none, db := db, detailCalls := 1 }
  | .ok d =>
    if d.Response == "False" then { result := none, db := db, detailCalls := 1 }
    else
      let db1 := cacheMovie db (convertOMDBToMovie d) now
      { result := getCachedMovie db1 imdbId, db := db1, detailCalls := 1 }

/-- `OMDBService.getMovieDetailsAndCache` (the spec's `getOrRefresh`): a
cached and fresh record is returned as-is with no upstream call; otherwise
the fetch-and-cache path runs. -/
def getMovieDetailsAndCache (db : DB) (responses : Nat → Except Unit OMDBMovieDetails)
    (imdbId : String) (now ttlMs : Nat) : FetchOutcome :=
  match getCachedMovie db imdbId with
  | some cached =>
    if isCacheFresh now cached.updatedAt ttlMs then
      { result := some cached, db := db, detailCalls := 0 }
    else fetchAndCache db responses imdbId now
  | none => fetchAndCache db responses imdbId now

end OMDBService

/-! ## Well-formedness and shared fixtures -/

/-- Basic well-formedness of the relational state: the `movies` id sequence
is ahead of every stored movie id, links reference movie ids below the
sequence value, and movie ids are unique (the primary key).  Every state
reachable from the empty database by the modelled operations satisfies
this. -/
structure DBWf (db : DB) : Prop where
  moviesFresh : ∀ m ∈ db.movies, m.id < db.nextId
  linksFresh : ∀ um ∈ db.userMovies, um.movieId < db.nextId
  idsUnique : ∀ m ∈ db.movies, ∀ m2 ∈ db.movies, m.id = m2.id → m = m2

/-- The effective-title invariant: every link's stored
`effective_normalized_title` is the SQL `normalize_title` of its override
title (when set) or of its movie's current raw title. -/
def EffInv (db : DB) : Prop :=
  ∀ um ∈ db.userMovies, ∀ m ∈ db.movies, um.movieId = m.id →
    um.effectiveNormalizedTitle = sqlNormalizeTitle (um.overriddenTitle.getD m.title)

/-- The state after a repository call that reports errors: the transaction
aborts on error, leaving the caller's state. -/
def exceptState {α : Type} (db : DB) : Except SvcError (α × DB) → DB
  | .error _ => db
  | .ok x => x.2

/-- The empty database. -/
def emptyDB : DB := ⟨[], [], 0⟩

/-- A valid create request with a plain ASCII title. -/
def duneDraft : MoviesService.CreateMovieRequest :=
  { title := "Dune", year := 2021, runtimeMinutes := 155,
    genre := ["Drama"], director := ["Denis Villeneuve"] }

/-- A valid create request whose title contains a non-ASCII letter: the
TypeScript normalizer maps it to `"Am Lie"` while the SQL trigger function
stores `"Amlie"`, so the application-side duplicate pre-check and the
storage-level unique index disagree on it. -/
def amelieDraft : MoviesService.CreateMovieRequest :=
  { title := "Amélie", year := 2001, runtimeMinutes := 122,
    genre := ["Comedy"], director := ["Jean-Pierre Jeunet"] }

/-- A valid create request used as another user's custom movie. -/
def zeldaDraft : MoviesService.CreateMovieRequest :=
  { title := "Zelda Chronicle", year := 2020, runtimeMinutes := 90,
    genre := ["Action"], director := ["Someone Else"] }

/-! ## Claim C5 -/

/-- Claim C5: of the four example equations the spec states for the title
normalizer, three hold of `normalizeTitle`, but on `"Amélie (2001)"` the
code returns `"Am Lie"`, not the claimed `"Amlie"`: the implementation
replaces every stripped character by a space instead of deleting it, so the
letters around the removed `é` stay separated.  The repository's own unit
test (`test/unit/normalize.test.ts`) expects `"Amlie"`, and the SQL
`normalize_title` implementing the spec's algorithm does produce
`"Amlie"` — the TypeScript function is the outlier. -/
theorem c5_normalize_examples :
    normalizeTitle "the matrix" = "The Matrix" ∧
    normalizeTitle "" = "" ∧
    normalizeTitle "123 456" = "" ∧
    normalizeTitle "Amélie (2001)" = "Am Lie" ∧
    normalizeTitle "Amélie (2001)" ≠ "Amlie" ∧
    sqlNormalizeTitle "Amélie (2001)" = "Amlie" := by
  refine ⟨by decide, by decide, by decide, by decide, by decide, by decide⟩

/-! ## Claim C10 -/

/-- Claim C10 counterexample: the empty string has length less than 2, but
hybrid search with custom results enabled does not return the upstream
results for it — it rejects the query outright
(`'Query must be at least 1 character'`), for any upstream page. -/
theorem c10_counterexample :
    MoviesService.searchMoviesHybrid emptyDB "" 1 true ⟨[], 7⟩ (fun _ _ => 0) =
      .error .queryTooShort := rfl

/-- Claim C10 amended: for every query of length exactly 1 (below the
2-character fuzzy-search threshold but above the 1-character minimum),
hybrid search with custom results enabled returns the upstream items
unchanged — zero custom items prepended, no upstream item dropped — and
reports the upstream total. -/
theorem c10_amended (db : DB) (query : String) (page : Nat)
    (omdb : MoviesService.SearchPage) (sim : String → String → ℚ)
    (h1 : query.length = 1) :
    MoviesService.searchMoviesHybrid db query page true omdb sim =
      .ok ⟨omdb.items, page, omdb.total⟩ := by
  unfold MoviesService.searchMoviesHybrid MoviesRepository.searchByTitle
  simp [h1, List.filter_true]

/-- Claim C10 amended, witness at query `"Z"` over a database that does
contain a custom movie matching longer queries. -/
theorem c10_amended_witness :
    MoviesService.searchMoviesHybrid
        (MoviesService.createCustomMovie emptyDB 2 zeldaDraft 0).2 "Z" 1 true
        ⟨[], 7⟩ (fun _ _ => 0) = .ok ⟨[], 1, 7⟩ := by
  have h := c10_amended (MoviesService.createCustomMovie emptyDB 2 zeldaDraft 0).2
    "Z" 1 ⟨[], 7⟩ (fun _ _ => 0) (by decide)
  exact h

/-! ## Claim C1 -/

/-- The `movies` row `createCustomMovie` inserts for a validated draft. -/
def customRow (db : DB) (userId : Nat) (d : MoviesService.CreateMovieRequest) (now : Nat) :
    MovieRow :=
  { id := db.nextId, omdbId := none, title := jsTrim d.title,
    normalizedTitle := normalizeTitle (jsTrim d.title), year := some d.year,
    runtimeMinutes := some d.runtimeMinutes, genre := some d.genre,
    director := some d.director,
    poster := (if d.poster == some "" then none else d.poster),
    source := .custom, createdByUserId := some userId, isDeleted := false,
    deletedAt := none, createdAt := now, updatedAt := now }

/-- `UserMoviesRepository.create` surfaces only the movie-missing and
unique-violation errors, never the service-level Conflict error. -/
theorem userMoviesCreate_no_conflict (db : DB) (u mid : Nat) (fav : Bool) (now : Nat) :
    UserMoviesRepository.create db u mid fav now ≠ .error .conflict := by
  unfold UserMoviesRepository.create
  cases h : db.movies.find? (fun m => m.id == mid) <;> simp
  split
  · simp
  · split <;> simp

/-- `UserMoviesRepository.create` succeeds and appends the trigger-derived
link row when the movie resolves and neither the primary key nor the
per-user effective-title unique index objects. -/
theorem userMoviesCreate_ok (db : DB) (u mid : Nat) (fav : Bool) (now : Nat) (m : MovieRow)
    (hm : db.movies.find? (fun x => x.id == mid) = some m)
    (hpk : db.userMovies.any (fun um => um.userId == u && um.movieId == mid) = false)
    (huniq : db.userMovies.any (fun um => um.userId == u &&
      lowerString um.effectiveNormalizedTitle ==
        lowerString (sqlNormalizeTitle m.title)) = false) :
    UserMoviesRepository.create db u mid fav now = .ok
      ({ userId := u, movieId := mid, isFavorite := fav, overriddenTitle := none,
         overriddenYear := none, overriddenRuntimeMinutes := none, overriddenGenre := none,
         overriddenDirector := none,
         effectiveNormalizedTitle := sqlNormalizeTitle m.title,
         createdAt := now, updatedAt := now },
       { db with userMovies := (db.userMovies ++
          [{ userId := u, movieId := mid, isFavorite := fav, overriddenTitle := none,
             overriddenYear := none, overriddenRuntimeMinutes := none, overriddenGenre := none,
             overriddenDirector := none,
             effectiveNormalizedTitle := sqlNormalizeTitle m.title,
             createdAt := now, updatedAt := now }]) }) := by
  unfold UserMoviesRepository.create
  rw [hm]
  simp only [hpk, huniq, Bool.false_eq_true, if_false]

/-- Claim C1 amended: for a valid draft, `createCustomMovie` rejects with
the Conflict error iff the user already has **any** link — including one
whose movie is soft-deleted — whose stored effective normalized title
matches `normalizeTitle` of the trimmed draft title case-insensitively (the
lookup has no deletion filter); and whenever no link of this user matches
either the TypeScript key or the trigger key `sqlNormalizeTitle` (and the
state is id-fresh), the call succeeds — in particular a different user with
no own matching links can create the identical title. -/
theorem c1_amended (db : DB) (userId : Nat) (d : MoviesService.CreateMovieRequest) (now : Nat)
    (hv : MoviesService.validCreate d = true) :
    ((MoviesService.createCustomMovie db userId d now).1 = .error .conflict ↔
      ∃ um ∈ db.userMovies, um.userId = userId ∧
        lowerString um.effectiveNormalizedTitle =
          lowerString (normalizeTitle (jsTrim d.title))) ∧
    ((∀ um ∈ db.userMovies, um.movieId ≠ db.nextId) →
      (∀ um ∈ db.userMovies, um.userId = userId →
        lowerString um.effectiveNormalizedTitle ≠ lowerString (normalizeTitle (jsTrim d.title)) ∧
        lowerString um.effectiveNormalizedTitle ≠ lowerString (sqlNormalizeTitle (jsTrim d.title))) →
      (∀ m ∈ db.movies, m.id ≠ db.nextId) →
      ∃ mv, (MoviesService.createCustomMovie db userId d now).1 = .ok mv ∧
        mv.createdByUserId = some userId) := by
  constructor
  · cases hf : UserMoviesRepository.findByUserAndEffectiveTitle db userId
        (normalizeTitle (jsTrim d.title)) with
    | some um =>
      constructor
      · intro _
        have hmem := List.mem_of_find?_eq_some hf
        have hp := List.find?_some hf
        simp only [Bool.and_eq_true, beq_iff_eq] at hp
        exact ⟨um, hmem, hp.1, hp.2⟩
      · intro _
        simp [MoviesService.createCustomMovie, hv, hf]
    | none =>
      have hnone : ∀ um ∈ db.userMovies,
          ¬(um.userId == userId &&
            lowerString um.effectiveNormalizedTitle ==
              lowerString (normalizeTitle (jsTrim d.title))) := by
        have h2 := hf
        unfold UserMoviesRepository.findByUserAndEffectiveTitle at h2
        rw [List.find?_eq_none] at h2
        exact h2
      constructor
      · intro hres
        exfalso
        simp only [MoviesService.createCustomMovie, hv, Bool.not_true,
          Bool.false_eq_true, if_false, hf] at hres
        cases hcr : UserMoviesRepository.create
            (MoviesRepository.create db
              { title := jsTrim d.title, normalizedTitle := normalizeTitle (jsTrim d.title),
                year := some d.year, runtimeMinutes := some d.runtimeMinutes,
                genre := some d.genre, director := some d.director,
                poster := (if d.poster == some "" then none else d.poster),
                source := .custom, createdByUserId := some userId } now).2 userId
            (MoviesRepository.create db
              { title := jsTrim d.title, normalizedTitle := normalizeTitle (jsTrim d.title),
                year := some d.year, runtimeMinutes := some d.runtimeMinutes,
                genre := some d.genre, director := some d.director,
                poster := (if d.poster == some "" then none else d.poster),
                source := .custom, createdByUserId := some userId } now).1.id false now with
        | error e =>
          rw [hcr] at hres
          simp at hres
          exact userMoviesCreate_no_conflict _ _ _ _ _ (hres ▸ hcr)
        | ok x =>
          rw [hcr] at hres
          simp at hres
      · rintro ⟨um, hmem, hu, ht⟩
        exact absurd (by simp [hu, ht]) (hnone um hmem)
  · intro h1 h2 h3
    have hf : UserMoviesRepository.findByUserAndEffectiveTitle db userId
        (normalizeTitle (jsTrim d.title)) = none := by
      unfold UserMoviesRepository.findByUserAndEffectiveTitle
      rw [List.find?_eq_none]
      intro um hmem
      simp only [Bool.and_eq_true, beq_iff_eq, not_and]
      intro hu
      exact (h2 um hmem hu).1
    have hfind : (db.movies ++ [customRow db userId d now]).find?
        (fun x => x.id == db.nextId) = some (customRow db userId d now) := by
      rw [List.find?_append]
      have hl : db.movies.find? (fun x => x.id == db.nextId) = none := by
        rw [List.find?_eq_none]
        intro m hm
        simp [h3 m hm]
      rw [hl]
      simp [List.find?, customRow]
    have hpk : db.userMovies.any
        (fun um => um.userId == userId && um.movieId == db.nextId) = false := by
      rw [List.any_eq_false]
      intro um hum
      simp [beq_iff_eq, h1 um hum]
    have huniq : db.userMovies.any (fun um => um.userId == userId &&
        lowerString um.effectiveNormalizedTitle ==
          lowerString (sqlNormalizeTitle (customRow db userId d now).title)) = false := by
      rw [List.any_eq_false]
      intro um hum
      simp only [Bool.and_eq_true, beq_iff_eq, not_and]
      intro hu
      exact (h2 um hum hu).2
    have hok := userMoviesCreate_ok
      { db with movies := (db.movies ++ [customRow db userId d now]), nextId := db.nextId + 1 }
      userId db.nextId false now (customRow db userId d now) hfind hpk huniq
    have hrepo : MoviesRepository.create db
        { title := jsTrim d.title, normalizedTitle := normalizeTitle (jsTrim d.title),
          year := some d.year, runtimeMinutes := some d.runtimeMinutes,
          genre := some d.genre, director := some d.director,
          poster := (if d.poster == some "" then none else d.poster),
          source := .custom, createdByUserId := some userId } now =
        (customRow db userId d now,
          { db with movies := (db.movies ++ [customRow db userId d now]),
                    nextId := db.nextId + 1 }) := rfl
    simp only [MoviesService.createCustomMovie, hv, Bool.not_true, Bool.false_eq_true,
      if_false, hf, hrepo]
    have hid : (customRow db userId d now).id = db.nextId := rfl
    rw [hid, hok]
    exact ⟨_, rfl, rfl⟩

/-- Claim C1 amended, witness: after user 2 creates `"Dune"`, user 1 —
whose own links match neither key — successfully creates the identical
title. -/
theorem c1_amended_witness :
    ∃ mv, (MoviesService.createCustomMovie
        (MoviesService.createCustomMovie emptyDB 2 duneDraft 0).2 1 duneDraft 1).1 =
      .ok mv ∧ mv.createdByUserId = some 1 := by
  have h := c1_amended (MoviesService.createCustomMovie emptyDB 2 duneDraft 0).2 1
    duneDraft 1 (by decide)
  exact h.2 (by decide) (by decide) (by decide)

/-- Claim C1 counterexample: user 1 creates the custom movie `"Dune"`,
soft-deletes it (`deleteMovie` marks the movie row deleted but leaves the
link row), and creates `"Dune"` again.  The third call rejects with the
Conflict error even though every link user 1 still has points to a
soft-deleted movie: `findByUserAndEffectiveTitle` carries no `is_deleted`
filter, so a link to a soft-deleted movie does trigger the Conflict,
contradicting the claim. -/
theorem c1_counterexample :
    (MoviesService.createCustomMovie
        (MoviesService.deleteMovie
          (MoviesService.createCustomMovie emptyDB 1 duneDraft 0).2 1 0 1).2
        1 duneDraft 2).1 = .error .conflict ∧
    ∀ um ∈ (MoviesService.deleteMovie
        (MoviesService.createCustomMovie emptyDB 1 duneDraft 0).2 1 0 1).2.userMovies,
      um.userId = 1 ∧
      ∀ m ∈ (MoviesService.deleteMovie
          (MoviesService.createCustomMovie emptyDB 1 duneDraft 0).2 1 0 1).2.movies,
        um.movieId = m.id → m.isDeleted = true := by
  refine ⟨rfl, by decide⟩

/-! ## Claim C2 -/

/-- Claim C2 counterexample: user 1 creates the custom movie `"Dune"` (the
trigger stores effective title `"Dune"`), then edits the canonical title to
`"Tenet"` through `updateMovie`'s owner branch.  That branch updates only
the `movies` row; no `user_movies` write happens, the trigger never fires,
and the stored effective normalized title `"Dune"` now differs from the
normalization of the link's effective raw title `"Tenet"` under the SQL
trigger function and under the TypeScript normalizer alike — the claimed
equality does not survive canonical-title edits. -/
theorem c2_counterexample :
    (MoviesService.updateMovie
      (MoviesService.createCustomMovie emptyDB 1 duneDraft 0).2 1 0
      { title := some "Tenet" } 5).2.userMovies.length = 1 ∧
    (MoviesService.updateMovie
      (MoviesService.createCustomMovie emptyDB 1 duneDraft 0).2 1 0
      { title := some "Tenet" } 5).2.movies.length = 1 ∧
    ((MoviesService.updateMovie
        (MoviesService.createCustomMovie emptyDB 1 duneDraft 0).2 1 0
        { title := some "Tenet" } 5).2.userMovies.all (fun um =>
      (MoviesService.updateMovie
          (MoviesService.createCustomMovie emptyDB 1 duneDraft 0).2 1 0
          { title := some "Tenet" } 5).2.movies.all (fun m =>
        decide (um.movieId = m.id) &&
        decide (um.effectiveNormalizedTitle ≠
          sqlNormalizeTitle (um.overriddenTitle.getD m.title)) &&
        decide (um.effectiveNormalizedTitle ≠
          normalizeTitle (um.overriddenTitle.getD m.title))))) = true := by
  refine ⟨rfl, rfl, by decide⟩

/-! ## Claim C3 -/

/-- Claim C3 counterexample: user 1 creates `"Amélie"` twice.  The
duplicate pre-check compares against the TypeScript key `"am lie"` while
the trigger stored `"Amlie"`, so the second call passes the pre-check,
inserts the second `movies` row (id 1), and only then fails the per-user
unique index when inserting the initial link.  The error surfaces as a raw
storage error, and the second canonical movie row remains with no link —
the two inserts are not atomic. -/
theorem c3_counterexample :
    (MoviesService.createCustomMovie
        (MoviesService.createCustomMovie emptyDB 1 amelieDraft 0).2 1 amelieDraft 1).1 =
      .error .uniqueViolation ∧
    (∃ m ∈ (MoviesService.createCustomMovie
        (MoviesService.createCustomMovie emptyDB 1 amelieDraft 0).2 1 amelieDraft 1).2.movies,
      m.id = 1 ∧ m.isDeleted = false) ∧
    ∀ um ∈ (MoviesService.createCustomMovie
        (MoviesService.createCustomMovie emptyDB 1 amelieDraft 0).2 1 amelieDraft 1).2.userMovies,
      um.movieId ≠ 1 := by
  refine ⟨rfl, by decide, by decide⟩

/-- Claim C3 amended: the two inserts of `createCustomMovie` are sequential
statements with no surrounding transaction.  Whenever the initial link
insert fails with the storage-level unique violation (which the
application-side pre-check does not fully prevent, since it compares the
TypeScript key against trigger-stored SQL keys), the already-committed
custom `movies` row — owned by the caller — remains in the database while
no link row was added. -/
theorem c3_amended (db : DB) (userId : Nat) (d : MoviesService.CreateMovieRequest) (now : Nat)
    (h : (MoviesService.createCustomMovie db userId d now).1 = .error .uniqueViolation) :
    (MoviesService.createCustomMovie db userId d now).2.movies =
      db.movies ++ [customRow db userId d now] ∧
    (MoviesService.createCustomMovie db userId d now).2.userMovies = db.userMovies ∧
    (customRow db userId d now).source = Source.custom ∧
    (customRow db userId d now).createdByUserId = some userId := by
  cases hval : MoviesService.validCreate d with
  | false =>
    exfalso
    simp [MoviesService.createCustomMovie, hval] at h
  | true =>
    cases hf : UserMoviesRepository.findByUserAndEffectiveTitle db userId
        (normalizeTitle (jsTrim d.title)) with
    | some um =>
      exfalso
      simp [MoviesService.createCustomMovie, hval, hf] at h
    | none =>
      have hrepo : MoviesRepository.create db
          { title := jsTrim d.title, normalizedTitle := normalizeTitle (jsTrim d.title),
            year := some d.year, runtimeMinutes := some d.runtimeMinutes,
            genre := some d.genre, director := some d.director,
            poster := (if d.poster == some "" then none else d.poster),
            source := .custom, createdByUserId := some userId } now =
          (customRow db userId d now,
            { db with movies := (db.movies ++ [customRow db userId d now]),
                      nextId := db.nextId + 1 }) := rfl
      simp only [MoviesService.createCustomMovie, hval, Bool.not_true, Bool.false_eq_true,
        if_false, hf, hrepo] at h ⊢
      cases hcr : UserMoviesRepository.create
          { db with movies := (db.movies ++ [customRow db userId d now]),
                    nextId := db.nextId + 1 } userId (customRow db userId d now).id
          false now with
      | error e => exact ⟨rfl, rfl, rfl, rfl⟩
      | ok x =>
        rw [hcr] at h
        exact Except.noConfusion h

/-- Claim C3 amended, witness at the Amélie double-create: the second call
fails the link insert, and the theorem localizes the orphaned movie row. -/
theorem c3_amended_witness :
    (MoviesService.createCustomMovie
        (MoviesService.createCustomMovie emptyDB 1 amelieDraft 0).2 1 amelieDraft 1).2.movies =
      (MoviesService.createCustomMovie emptyDB 1 amelieDraft 0).2.movies ++
        [customRow (MoviesService.createCustomMovie emptyDB 1 amelieDraft 0).2 1 amelieDraft 1] ∧
    (MoviesService.createCustomMovie
        (MoviesService.createCustomMovie emptyDB 1 amelieDraft 0).2 1 amelieDraft 1).2.userMovies =
      (MoviesService.createCustomMovie emptyDB 1 amelieDraft 0).2.userMovies ∧
    (customRow (MoviesService.createCustomMovie emptyDB 1 amelieDraft 0).2 1
        amelieDraft 1).source = Source.custom ∧
    (customRow (MoviesService.createCustomMovie emptyDB 1 amelieDraft 0).2 1
        amelieDraft 1).createdByUserId = some 1 :=
  c3_amended (MoviesService.createCustomMovie emptyDB 1 amelieDraft 0).2 1 amelieDraft 1 rfl

/-! ## Claim C4 -/

/-- Claim C4 counterexample: the hybrid search takes no caller identity at
all, and `searchByTitle` filters only on `source = 'custom'` and the
soft-delete flag — never on `created_by_user_id`.  Concretely: after user 2
creates the custom movie `"Zelda Chronicle"`, a hybrid search for
`"Zelda"` run on behalf of any other user (user 1, say) returns user 2's
custom movie, contradicting "no custom movie created by a different user
ever appears in the caller's hybrid results". -/
theorem c4_counterexample :
    ((MoviesService.searchMoviesHybrid
        (MoviesService.createCustomMovie emptyDB 2 zeldaDraft 0).2 "Zelda" 1 true
        ⟨[], 0⟩ (fun _ _ => 0)).toOption.any
      (fun r => r.items.any
        (fun m => m.createdByUserId == some 2 && decide (m.source = Source.custom)))) = true := by
  decide


/-- The `ORDER BY` comparison of `searchByTitle` is total. -/
theorem searchOrder_total (sim : String → String → ℚ) (query : String) (a b : MovieRow) :
    MoviesRepository.searchOrder sim query a b ∨ MoviesRepository.searchOrder sim query b a := by
  unfold MoviesRepository.searchOrder
  rcases lt_trichotomy (sim a.title query) (sim b.title query) with h | h | h
  · exact Or.inr (Or.inl h)
  · rcases Nat.le_total b.createdAt a.createdAt with hc | hc
    · exact Or.inl (Or.inr ⟨h, hc⟩)
    · exact Or.inr (Or.inr ⟨h.symm, hc⟩)
  · exact Or.inl (Or.inl h)

/-- The `ORDER BY` comparison of `searchByTitle` is transitive. -/
theorem searchOrder_trans (sim : String → String → ℚ) (query : String) (a b c : MovieRow)
    (hab : MoviesRepository.searchOrder sim query a b) (hbc : MoviesRepository.searchOrder sim query b c) :
    MoviesRepository.searchOrder sim query a c := by
  unfold MoviesRepository.searchOrder at *
  rcases hab with h1 | ⟨h1, h1c⟩
  · rcases hbc with h2 | ⟨h2, _⟩
    · exact Or.inl (h2.trans h1)
    · exact Or.inl (h2 ▸ h1)
  · rcases hbc with h2 | ⟨h2, h2c⟩
    · exact Or.inl (h1 ▸ h2)
    · exact Or.inr ⟨h1.trans h2, h2c.trans h1c⟩

/-- Claim C4 amended: when hybrid search succeeds with custom results
enabled, the items are the custom fuzzy matches followed by the upstream
items not deduplicated against them; the custom matches are capped at 10,
each is a non-deleted custom movie matching the query by substring or by
similarity above 0.3, they are ordered by similarity then creation
recency, and the total is the upstream total plus the custom count.  The
fuzzy search ranges over the custom movies of **all** users — the search
receives no caller identity, so results cannot be scoped to the caller. -/
theorem c4_amended (db : DB) (query : String) (page : Nat)
    (omdb : MoviesService.SearchPage) (sim : String → String → ℚ)
    (r : MoviesService.HybridResult)
    (h : MoviesService.searchMoviesHybrid db query page true omdb sim = .ok r) :
    r.items = MoviesRepository.searchByTitle db query 10 sim ++
      omdb.items.filter (fun o => !((MoviesRepository.searchByTitle db query 10 sim).any
        (fun c => lowerString c.title == lowerString o.title))) ∧
    (MoviesRepository.searchByTitle db query 10 sim).length ≤ 10 ∧
    (∀ m ∈ MoviesRepository.searchByTitle db query 10 sim,
      m ∈ db.movies ∧ m.source = Source.custom ∧ m.isDeleted = false ∧
        (MoviesRepository.containsCI m.title query = true ∨ (3 : ℚ)/10 < sim m.title query)) ∧
    (MoviesRepository.searchByTitle db query 10 sim).Pairwise (MoviesRepository.searchOrder sim query) ∧
    r.total = omdb.total + (MoviesRepository.searchByTitle db query 10 sim).length := by
  haveI : IsTotal MovieRow (MoviesRepository.searchOrder sim query) := ⟨searchOrder_total sim query⟩
  haveI : IsTrans MovieRow (MoviesRepository.searchOrder sim query) := ⟨searchOrder_trans sim query⟩
  have hr : r = ⟨MoviesRepository.searchByTitle db query 10 sim ++
      omdb.items.filter (fun o => !((MoviesRepository.searchByTitle db query 10 sim).any
        (fun c => lowerString c.title == lowerString o.title))), page,
      omdb.total + (MoviesRepository.searchByTitle db query 10 sim).length⟩ := by
    unfold MoviesService.searchMoviesHybrid at h
    by_cases hq : query.length < 1
    · simp [hq] at h
    · simp only [hq, if_false, Bool.not_true, if_neg, not_false_eq_true] at h
      exact (Except.ok.injEq _ _ ▸ h).symm
  subst hr
  refine ⟨rfl, ?_, ?_, ?_, rfl⟩
  · unfold MoviesRepository.searchByTitle
    by_cases hq : query.length < 2
    · simp [hq]
    · simp only [hq, if_false]
      rw [List.length_take]
      exact min_le_left _ _
  · intro m hm
    unfold MoviesRepository.searchByTitle at hm
    by_cases hq : query.length < 2
    · simp [hq] at hm
    · simp only [hq, if_false] at hm
      have hm2 := List.mem_of_mem_take hm
      rw [(List.perm_insertionSort _ _).mem_iff] at hm2
      rw [List.mem_filter] at hm2
      obtain ⟨hmem, hp⟩ := hm2
      simp only [Bool.and_eq_true, decide_eq_true_eq, Bool.or_eq_true, Bool.not_eq_true] at hp
      exact ⟨hmem, hp.1.1, by simpa using hp.1.2, by simpa using hp.2⟩
  · unfold MoviesRepository.searchByTitle
    by_cases hq : query.length < 2
    · simp [hq]
    · simp only [hq, if_false]
      exact ((List.sorted_insertionSort _ _).sublist (List.take_sublist _ _))


/-- Claim C4 amended, witness: the search for `"Zelda"` over the state
where user 2 owns a matching custom movie, instantiating the cap bound and
the total equation. -/
theorem c4_amended_witness :
    (MoviesRepository.searchByTitle
      (MoviesService.createCustomMovie emptyDB 2 zeldaDraft 0).2 "Zelda" 10
      (fun _ _ => 0)).length ≤ 10 ∧
    (⟨[customRow emptyDB 2 zeldaDraft 0], 1, 1⟩ : MoviesService.HybridResult).total =
      (⟨[], 0⟩ : MoviesService.SearchPage).total +
        (MoviesRepository.searchByTitle
          (MoviesService.createCustomMovie emptyDB 2 zeldaDraft 0).2 "Zelda" 10
          (fun _ _ => 0)).length := by
  have h := c4_amended (MoviesService.createCustomMovie emptyDB 2 zeldaDraft 0).2 "Zelda" 1
    ⟨[], 0⟩ (fun _ _ => 0) ⟨[customRow emptyDB 2 zeldaDraft 0], 1, 1⟩ (by rfl)
  exact ⟨h.2.1, h.2.2.2.2⟩

/-! ## Claim C6 -/

/-- A canonical row used to instantiate view lemmas. -/
def bladeRow : MovieRow :=
  { id := 0, omdbId := some "tt0083658", title := "Blade Runner",
    normalizedTitle := "Blade Runner", year := some 1982, runtimeMinutes := some 117,
    genre := some ["Sci-Fi"], director := some ["Ridley Scott"],
    poster := some "poster.jpg", source := .omdb, createdByUserId := none,
    isDeleted := false, deletedAt := none, createdAt := 0, updatedAt := 0 }

/-- A link of user 1 to `bladeRow` with no overrides. -/
def bladeLink : UserMovieRow :=
  { userId := 1, movieId := 0, isFavorite := true, overriddenTitle := none,
    overriddenYear := none, overriddenRuntimeMinutes := none, overriddenGenre := none,
    overriddenDirector := none, effectiveNormalizedTitle := "Blade Runner",
    createdAt := 0, updatedAt := 0 }

/-- Claim C6: in the merged user-facing view, every overridable field is
the link's override when present and the canonical field otherwise, the
poster is always the canonical poster, `isFavorite` comes from the link,
and `overrides` exposes the raw override values; with no overrides the
view equals the canonical fields exactly, and with an override on one
field (year, representatively) only that field differs. -/
theorem c6_merge_view (m : MovieRow) (um : UserMovieRow) :
    (mergeView m um).id = m.id ∧
    (mergeView m um).title = um.overriddenTitle.getD m.title ∧
    (mergeView m um).year = (um.overriddenYear <|> m.year) ∧
    (mergeView m um).runtimeMinutes = (um.overriddenRuntimeMinutes <|> m.runtimeMinutes) ∧
    (mergeView m um).genre = (um.overriddenGenre <|> m.genre) ∧
    (mergeView m um).director = (um.overriddenDirector <|> m.director) ∧
    (mergeView m um).poster = m.poster ∧
    (mergeView m um).isFavorite = um.isFavorite ∧
    (mergeView m um).overrides = ⟨um.overriddenTitle, um.overriddenYear,
      um.overriddenRuntimeMinutes, um.overriddenGenre, um.overriddenDirector⟩ ∧
    (mergeView m um).source = m.source ∧
    (um.overriddenTitle = none → um.overriddenYear = none →
      um.overriddenRuntimeMinutes = none → um.overriddenGenre = none →
      um.overriddenDirector = none →
      mergeView m um = ⟨m.id, m.title, m.year, m.runtimeMinutes, m.genre, m.director,
        m.poster, um.isFavorite, ⟨none, none, none, none, none⟩, m.source⟩) ∧
    (∀ y, um.overriddenYear = some y → um.overriddenTitle = none →
      um.overriddenRuntimeMinutes = none → um.overriddenGenre = none →
      um.overriddenDirector = none →
      mergeView m um = ⟨m.id, m.title, some y, m.runtimeMinutes, m.genre, m.director,
        m.poster, um.isFavorite, ⟨none, some y, none, none, none⟩, m.source⟩) := by
  refine ⟨rfl, rfl, rfl, rfl, rfl, rfl, rfl, rfl, rfl, rfl, ?_, ?_⟩
  · intro h1 h2 h3 h4 h5
    simp [mergeView, h1, h2, h3, h4, h5]
  · intro y hy h1 h3 h4 h5
    simp [mergeView, hy, h1, h3, h4, h5]

/-- Claim C6, witness: the no-override link of user 1 to the Blade Runner
row merges to exactly the canonical fields. -/
theorem c6_merge_view_witness :
    mergeView bladeRow bladeLink = ⟨bladeRow.id, bladeRow.title, bladeRow.year,
      bladeRow.runtimeMinutes, bladeRow.genre, bladeRow.director, bladeRow.poster,
      bladeLink.isFavorite, ⟨none, none, none, none, none⟩, bladeRow.source⟩ := by
  obtain ⟨-, -, -, -, -, -, -, -, -, -, hno, -⟩ := c6_merge_view bladeRow bladeLink
  exact hno rfl rfl rfl rfl rfl

/-! ## Claim C7 -/

/-- When every attempt within the budget fails, `fetchWithRetry`
propagates the failure. -/
theorem fetchWithRetry_allFail (responses : Nat → Except Unit OMDBService.OMDBMovieDetails)
    (a n : Nat) (h : ∀ k, a ≤ k → k ≤ a + n → responses k = .error ()) :
    OMDBService.fetchWithRetry responses a n = .error () := by
  induction n generalizing a with
  | zero =>
    unfold OMDBService.fetchWithRetry
    exact h a le_rfl (by omega)
  | succ n ih =>
    unfold OMDBService.fetchWithRetry
    rw [h a le_rfl (by omega)]
    exact ih (a + 1) (fun k hk1 hk2 => h k (by omega) (by omega))

/-- A successful first attempt is returned as-is by `fetchWithRetry`. -/
theorem fetchWithRetry_firstOk (responses : Nat → Except Unit OMDBService.OMDBMovieDetails)
    (d : OMDBService.OMDBMovieDetails) (a n : Nat) (h : responses a = .ok d) :
    OMDBService.fetchWithRetry responses a n = .ok d := by
  cases n with
  | zero => unfold OMDBService.fetchWithRetry; exact h
  | succ n => unfold OMDBService.fetchWithRetry; rw [h]

/-- Claim C7: when the upstream detail call fails on every attempt of the
retry budget (and the cache entry for the id, if any, is not fresh, so a
call is actually issued), `getMovieDetailsAndCache` returns `null` — it is
a total function, never an exception — and the database afterwards equals
the database before: the previously cached record is neither deleted nor
modified. -/
theorem c7_failure_preserves_cache (db : DB)
    (responses : Nat → Except Unit OMDBService.OMDBMovieDetails)
    (imdbId : String) (now ttlMs : Nat)
    (hfail : ∀ k, k ≤ OMDBService.maxRetries → responses k = .error ())
    (hstale : ∀ m, OMDBService.getCachedMovie db imdbId = some m →
      OMDBService.isCacheFresh now m.updatedAt ttlMs = false) :
    (OMDBService.getMovieDetailsAndCache db responses imdbId now ttlMs).result = none ∧
    (OMDBService.getMovieDetailsAndCache db responses imdbId now ttlMs).db = db := by
  have hfetch : OMDBService.fetchWithRetry responses 0 OMDBService.maxRetries = .error () :=
    fetchWithRetry_allFail responses 0 OMDBService.maxRetries
      (fun k hk1 hk2 => hfail k (by omega))
  have hfc : OMDBService.fetchAndCache db responses imdbId now =
      { result := none, db := db, detailCalls := 1 } := by
    unfold OMDBService.fetchAndCache
    rw [hfetch]
  unfold OMDBService.getMovieDetailsAndCache
  cases hc : OMDBService.getCachedMovie db imdbId with
  | none => simp [hfc]
  | some m => simp [hstale m hc, hfc]


/-- The cached upstream row fixture for the C7 witness. -/
def c7Data : MoviesRepository.OmdbUpsertData :=
  ⟨"tt1", "Dune", "Dune", some 2021, some 155, none, none⟩

/-- Claim C7, witness: a stale cached record for `"tt1"` survives an
upstream outage untouched and the call reports `null`. -/
theorem c7_failure_preserves_cache_witness :
    (OMDBService.getMovieDetailsAndCache (MoviesRepository.upsertFromOmdb emptyDB c7Data 0).2
      (fun _ => .error ()) "tt1" 100 50).result = none ∧
    (OMDBService.getMovieDetailsAndCache (MoviesRepository.upsertFromOmdb emptyDB c7Data 0).2
      (fun _ => .error ()) "tt1" 100 50).db = (MoviesRepository.upsertFromOmdb emptyDB c7Data 0).2 :=
  c7_failure_preserves_cache (MoviesRepository.upsertFromOmdb emptyDB c7Data 0).2
    (fun _ => .error ()) "tt1" 100 50 (fun k _ => rfl)
    (fun m hm => by
      have hr : (MoviesRepository.upsertFromOmdb emptyDB c7Data 0).1 = m := Option.some.inj hm
      rw [← hr]
      decide)

/-! ## Claim C8 -/

/-- The fresh row the OMDB upsert inserts on a cache miss. -/
def omdbInsertRow (db : DB) (data : MoviesRepository.OmdbUpsertData) (now : Nat) : MovieRow :=
  { id := db.nextId, omdbId := some data.omdbId, title := data.title,
    normalizedTitle := data.normalizedTitle, year := data.year,
    runtimeMinutes := data.runtimeMinutes, genre := data.genre, director := data.director,
    poster := none, source := .omdb, createdByUserId := none, isDeleted := false,
    deletedAt := none, createdAt := now, updatedAt := now }

/-- The OMDB upsert on a cache miss appends a fresh row. -/
theorem upsertFromOmdb_miss (db : DB) (data : MoviesRepository.OmdbUpsertData) (now : Nat)
    (h : db.movies.find? (fun m => m.omdbId == some data.omdbId) = none) :
    MoviesRepository.upsertFromOmdb db data now =
      (omdbInsertRow db data now,
        { db with movies := (db.movies ++ [omdbInsertRow db data now]),
                  nextId := db.nextId + 1 }) := by
  unfold MoviesRepository.upsertFromOmdb
  rw [h]
  rfl

/-- The OMDB upsert on a conflict rewrites only the derived fields of the
existing row. -/
theorem upsertFromOmdb_hit (db : DB) (data : MoviesRepository.OmdbUpsertData) (now : Nat)
    (m : MovieRow)
    (h : db.movies.find? (fun x => x.omdbId == some data.omdbId) = some m) :
    MoviesRepository.upsertFromOmdb db data now =
      (MoviesRepository.applyOmdbConflictUpdate data m now,
        { db with movies := (db.movies.map (fun x =>
            if x.omdbId == some data.omdbId then
              MoviesRepository.applyOmdbConflictUpdate data x now
            else x)) }) := by
  unfold MoviesRepository.upsertFromOmdb
  rw [h]

/-- Claim C8: a cached record that is fresh (`now - updatedAt < ttl`,
strictly) is returned with zero upstream detail calls; starting from a
cache miss, the first call issues exactly one upstream detail call and
stores the record with `updated_at = now1`, a second call within the TTL
window issues none and returns the stored record (so the two calls issue
exactly one upstream call between them), and a call after the TTL elapses
issues one further upstream call and bumps the record's `updated_at`
without touching its id. -/
theorem c8_ttl (db : DB)
    (responses responses2 responses3 : Nat → Except Unit OMDBService.OMDBMovieDetails)
    (d : OMDBService.OMDBMovieDetails) (imdbId : String) (now1 now2 now3 ttlMs : Nat)
    (hmiss : OMDBService.getCachedMovie db imdbId = none)
    (hresp : responses 0 = .ok d)
    (hok : (d.Response == "False") = false)
    (hid : d.imdbID = imdbId)
    (hfresh : OMDBService.isCacheFresh now2 now1 ttlMs = true)
    (hstale : OMDBService.isCacheFresh now3 now1 ttlMs = false) :
    (∀ db0 m now, OMDBService.getCachedMovie db0 imdbId = some m →
      OMDBService.isCacheFresh now m.updatedAt ttlMs = true →
      OMDBService.getMovieDetailsAndCache db0 responses2 imdbId now ttlMs =
        { result := some m, db := db0, detailCalls := 0 }) ∧
    ∃ r db1,
      OMDBService.getMovieDetailsAndCache db responses imdbId now1 ttlMs =
        { result := some r, db := db1, detailCalls := 1 } ∧
      r.updatedAt = now1 ∧ r.omdbId = some imdbId ∧
      OMDBService.getMovieDetailsAndCache db1 responses2 imdbId now2 ttlMs =
        { result := some r, db := db1, detailCalls := 0 } ∧
      (∀ d3, responses3 0 = .ok d3 → (d3.Response == "False") = false → d3.imdbID = imdbId →
        (OMDBService.getMovieDetailsAndCache db1 responses3 imdbId now3 ttlMs).detailCalls = 1 ∧
        ∃ r3, OMDBService.getCachedMovie
            (OMDBService.getMovieDetailsAndCache db1 responses3 imdbId now3 ttlMs).db imdbId =
            some r3 ∧ r3.updatedAt = now3 ∧ r3.id = r.id) := by
  constructor
  · intro db0 m now hc hf
    unfold OMDBService.getMovieDetailsAndCache
    rw [hc]
    simp only [hf, if_true]
  · have hconv : (OMDBService.convertOMDBToMovie d).omdbId = imdbId := hid
    have hfind0 : db.movies.find? (fun m => m.omdbId == some imdbId) = none := hmiss
    have hfind0x : db.movies.find?
        (fun m => m.omdbId == some (OMDBService.convertOMDBToMovie d).omdbId) = none := by
      rw [hconv]; exact hfind0
    have hup := upsertFromOmdb_miss db (OMDBService.convertOMDBToMovie d) now1 hfind0x
    set row := omdbInsertRow db (OMDBService.convertOMDBToMovie d) now1 with hrow
    set db1 := { db with
      movies := (db.movies ++ [row]), nextId := db.nextId + 1 } with hdb1
    have hrowp : (row.omdbId == some imdbId) = true := by
      simp [hrow, omdbInsertRow, hconv]
    have hgc1 : OMDBService.getCachedMovie db1 imdbId = some row := by
      unfold OMDBService.getCachedMovie
      rw [hdb1]
      simp only [List.find?_append, hfind0, Option.none_or]
      simp [List.find?, hrowp]
    have hcall1 : OMDBService.getMovieDetailsAndCache db responses imdbId now1 ttlMs =
        { result := some row, db := db1, detailCalls := 1 } := by
      unfold OMDBService.getMovieDetailsAndCache
      rw [hmiss]
      unfold OMDBService.fetchAndCache
      rw [fetchWithRetry_firstOk responses d 0 OMDBService.maxRetries hresp]
      simp only [hok, Bool.false_eq_true, if_false]
      have hcm : OMDBService.cacheMovie db (OMDBService.convertOMDBToMovie d) now1 = db1 := by
        unfold OMDBService.cacheMovie
        rw [hup]
      rw [hcm, hgc1]
    have hru : row.updatedAt = now1 := rfl
    refine ⟨row, db1, hcall1, rfl, ?_, ?_, ?_⟩
    · show some (OMDBService.convertOMDBToMovie d).omdbId = some imdbId
      rw [hconv]
    · unfold OMDBService.getMovieDetailsAndCache
      rw [hgc1]
      simp only [hru, hfresh, if_true]
    · intro d3 h3resp h3ok h3id
      have hconv3 : (OMDBService.convertOMDBToMovie d3).omdbId = imdbId := h3id
      have hfind1 : db1.movies.find?
          (fun x => x.omdbId == some (OMDBService.convertOMDBToMovie d3).omdbId) = some row := by
        rw [hconv3]; exact hgc1
      have hup3 := upsertFromOmdb_hit db1 (OMDBService.convertOMDBToMovie d3) now3 row hfind1
      have hcall3 : OMDBService.getMovieDetailsAndCache db1 responses3 imdbId now3 ttlMs =
          { result := OMDBService.getCachedMovie
              (OMDBService.cacheMovie db1 (OMDBService.convertOMDBToMovie d3) now3) imdbId,
            db := OMDBService.cacheMovie db1 (OMDBService.convertOMDBToMovie d3) now3,
            detailCalls := 1 } := by
        unfold OMDBService.getMovieDetailsAndCache
        rw [hgc1]
        simp only [hru, hstale, Bool.false_eq_true, if_false]
        unfold OMDBService.fetchAndCache
        rw [fetchWithRetry_firstOk responses3 d3 0 OMDBService.maxRetries h3resp]
        simp only [h3ok, Bool.false_eq_true, if_false]
      have hcm3 : OMDBService.cacheMovie db1 (OMDBService.convertOMDBToMovie d3) now3 =
          { db1 with movies := (db1.movies.map (fun x =>
              if x.omdbId == some (OMDBService.convertOMDBToMovie d3).omdbId then
                MoviesRepository.applyOmdbConflictUpdate (OMDBService.convertOMDBToMovie d3) x now3
              else x)) } := by
        unfold OMDBService.cacheMovie
        rw [hup3]
      have hpf : (fun (x : MovieRow) => x.omdbId == some imdbId) ∘
          (fun x => if x.omdbId == some (OMDBService.convertOMDBToMovie d3).omdbId then
            MoviesRepository.applyOmdbConflictUpdate (OMDBService.convertOMDBToMovie d3) x now3
          else x) = (fun x => x.omdbId == some imdbId) := by
        funext x
        by_cases hx : (x.omdbId == some (OMDBService.convertOMDBToMovie d3).omdbId) = true
        · simp only [Function.comp_apply, hx, if_true]
          show ((MoviesRepository.applyOmdbConflictUpdate _ x now3).omdbId == some imdbId) =
            (x.omdbId == some imdbId)
          rfl
        · simp only [Function.comp_apply, hx, Bool.false_eq_true, if_false]
      have hgc3 : OMDBService.getCachedMovie
          (OMDBService.cacheMovie db1 (OMDBService.convertOMDBToMovie d3) now3) imdbId =
          some (MoviesRepository.applyOmdbConflictUpdate (OMDBService.convertOMDBToMovie d3)
            row now3) := by
        rw [hcm3]
        unfold OMDBService.getCachedMovie
        show (db1.movies.map _).find? (fun m : MovieRow => m.omdbId == some imdbId) = _
        rw [List.find?_map]
        rw [hpf]
        have : db1.movies.find? (fun m => m.omdbId == some imdbId) = some row := hgc1
        rw [this]
        have hfr : (row.omdbId == some (OMDBService.convertOMDBToMovie d3).omdbId) = true := by
          rw [hconv3]; exact hrowp
        simp [hfr]
        exact fun hne => absurd (eq_of_beq hfr) hne
      rw [hcall3]
      refine ⟨rfl, MoviesRepository.applyOmdbConflictUpdate (OMDBService.convertOMDBToMovie d3)
        row now3, hgc3, rfl, rfl⟩


/-- The upstream detail response fixture for the C8 witness. -/
def c8d : OMDBService.OMDBMovieDetails :=
  ⟨"tt2", "Dune", "2021", "155 min", "Sci-Fi", "Denis Villeneuve", "True"⟩

/-- Claim C8, witness: the empty cache, a working upstream, TTL 10, calls
at times 0, 5 and 20. -/
theorem c8_ttl_witness :
    (∀ db0 m now, OMDBService.getCachedMovie db0 "tt2" = some m →
      OMDBService.isCacheFresh now m.updatedAt 10 = true →
      OMDBService.getMovieDetailsAndCache db0 (fun _ => .ok c8d) "tt2" now 10 =
        { result := some m, db := db0, detailCalls := 0 }) ∧
    ∃ r db1,
      OMDBService.getMovieDetailsAndCache emptyDB (fun _ => .ok c8d) "tt2" 0 10 =
        { result := some r, db := db1, detailCalls := 1 } ∧
      r.updatedAt = 0 ∧ r.omdbId = some "tt2" ∧
      OMDBService.getMovieDetailsAndCache db1 (fun _ => .ok c8d) "tt2" 5 10 =
        { result := some r, db := db1, detailCalls := 0 } ∧
      (∀ d3, (fun _ : Nat => (Except.ok c8d : Except Unit OMDBService.OMDBMovieDetails)) 0 =
          .ok d3 → (d3.Response == "False") = false → d3.imdbID = "tt2" →
        (OMDBService.getMovieDetailsAndCache db1 (fun _ => .ok c8d) "tt2" 20 10).detailCalls = 1 ∧
        ∃ r3, OMDBService.getCachedMovie
            (OMDBService.getMovieDetailsAndCache db1 (fun _ => .ok c8d) "tt2" 20 10).db "tt2" =
            some r3 ∧ r3.updatedAt = 20 ∧ r3.id = r.id) :=
  c8_ttl emptyDB (fun _ => .ok c8d) (fun _ => .ok c8d) (fun _ => .ok c8d) c8d "tt2" 0 5 20 10
    rfl rfl (by decide) rfl (by decide) (by decide)

/-! ## Claim C9 -/

/-- Frame relation: every pre-existing movie row still has a row with the
same id carrying the same poster. -/
def PosterFrame (old new : List MovieRow) : Prop :=
  ∀ m ∈ old, ∃ m2 ∈ new, m2.id = m.id ∧ m2.poster = m.poster

theorem posterFrame_refl (l : List MovieRow) : PosterFrame l l :=
  fun m hm => ⟨m, hm, rfl, rfl⟩

theorem posterFrame_map (l : List MovieRow) (f : MovieRow → MovieRow)
    (hf : ∀ x, (f x).id = x.id ∧ (f x).poster = x.poster) : PosterFrame l (l.map f) :=
  fun m hm => ⟨f m, List.mem_map_of_mem f hm, (hf m).1, (hf m).2⟩

theorem posterFrame_append (l r : List MovieRow) : PosterFrame l (l ++ r) :=
  fun m hm => ⟨m, List.mem_append_left r hm, rfl, rfl⟩

theorem update_posterFrame (db : DB) (mid u : Nat) (d : MoviesRepository.MovieUpdateData)
    (now : Nat) : PosterFrame db.movies (MoviesRepository.update db mid u d now).2.movies := by
  unfold MoviesRepository.update
  split
  · exact posterFrame_refl _
  · lift_lets
    intro wher
    split
    · exact posterFrame_refl _
    · exact posterFrame_map _ _ (fun x => by split <;> exact ⟨rfl, rfl⟩)

theorem upsert_posterFrame (db : DB) (data : MoviesRepository.OmdbUpsertData) (now : Nat) :
    PosterFrame db.movies (MoviesRepository.upsertFromOmdb db data now).2.movies := by
  unfold MoviesRepository.upsertFromOmdb
  split
  · exact posterFrame_map _ _ (fun x => by split <;> exact ⟨rfl, rfl⟩)
  · exact posterFrame_append _ _

theorem cacheMovie_posterFrame (db : DB) (data : MoviesRepository.OmdbUpsertData) (now : Nat) :
    PosterFrame db.movies (OMDBService.cacheMovie db data now).movies :=
  upsert_posterFrame db data now

theorem delete_posterFrame (db : DB) (mid u : Nat) (now : Nat) :
    PosterFrame db.movies (MoviesRepository.delete db mid u now).2.movies := by
  unfold MoviesRepository.delete
  exact posterFrame_map _ _ (fun x => by split <;> exact ⟨rfl, rfl⟩)

theorem updateOverrides_movies (db : DB) (u mid : Nat)
    (p : UserMoviesRepository.OverridePatch) (now : Nat) :
    (exceptState db (UserMoviesRepository.updateOverrides db u mid p now)).movies = db.movies := by
  unfold UserMoviesRepository.updateOverrides
  split
  · rfl
  · split
    · rfl
    · split
      · rfl
      · split
        · rfl
        · rfl

theorem ownerUpdate_posterFrame (db : DB) (u mid : Nat)
    (d : MoviesRepository.MovieUpdateData) (now : Nat) :
    PosterFrame db.movies (MoviesService.ownerUpdate db u mid d now).2.movies := by
  unfold MoviesService.ownerUpdate
  cases h : MoviesRepository.update db mid u d now with
  | mk fst snd =>
    have hf := update_posterFrame db mid u d now
    rw [h] at hf
    cases fst <;> exact hf

theorem updateMovie_posterFrame (db : DB) (u mid : Nat)
    (p : MoviesService.UpdateMovieRequest) (now : Nat) :
    PosterFrame db.movies (MoviesService.updateMovie db u mid p now).2.movies := by
  unfold MoviesService.updateMovie
  split
  · exact posterFrame_refl _
  · split
    · exact posterFrame_refl _
    · split
      · -- owner branch
        split
        · -- a title was supplied
          split
          · split
            · exact posterFrame_refl _
            · exact ownerUpdate_posterFrame db u mid _ now
          · exact ownerUpdate_posterFrame db u mid _ now
        · exact ownerUpdate_posterFrame db u mid _ now
      · -- override branch
        split
        · exact posterFrame_refl _
        · have hmov := updateOverrides_movies db u mid
            (MoviesService.toOverridePatch (p.title.map jsTrim) p) now
          cases hov : UserMoviesRepository.updateOverrides db u mid
              (MoviesService.toOverridePatch (p.title.map jsTrim) p) now with
          | error e => exact posterFrame_refl _
          | ok x =>
            rw [hov] at hmov
            have hx : x.2.movies = db.movies := hmov
            intro m hm
            exact ⟨m, hx ▸ hm, rfl, rfl⟩


/-- Claim C9: the poster column is written only at row creation.  Every
later operation preserves each pre-existing row's poster: the service
`updateMovie` (on both its owner-edit and override branches, and even when
the incoming patch mentions a poster — the schema strips it), the per-user
override write (which touches no `movies` row at all), the two OMDB cache
upserts (whose conflict-update SET lists rewrite the derived fields but
not poster), and the soft delete. -/
theorem c9_poster_immutable :
    (∀ db u mid p now, PosterFrame db.movies
      (MoviesService.updateMovie db u mid p now).2.movies) ∧
    (∀ db u mid p now, (exceptState db
      (UserMoviesRepository.updateOverrides db u mid p now)).movies = db.movies) ∧
    (∀ db data now, PosterFrame db.movies
      (MoviesRepository.upsertFromOmdb db data now).2.movies) ∧
    (∀ db data now, PosterFrame db.movies (OMDBService.cacheMovie db data now).movies) ∧
    (∀ db mid u now, PosterFrame db.movies (MoviesRepository.delete db mid u now).2.movies) :=
  ⟨fun db u mid p now => updateMovie_posterFrame db u mid p now,
   fun db u mid p now => updateOverrides_movies db u mid p now,
   fun db data now => upsert_posterFrame db data now,
   fun db data now => cacheMovie_posterFrame db data now,
   fun db mid u now => delete_posterFrame db mid u now⟩


/-- Claim C9, witness: after user 1 creates `"Dune"` and then retitles it
with a patch that also (illegally) mentions a poster, the row keeps its
original poster. -/
theorem c9_poster_immutable_witness :
    ∃ m2 ∈ (MoviesService.updateMovie (MoviesService.createCustomMovie emptyDB 1 duneDraft 0).2
        1 0 { title := some "Tenet", poster := some "sneaky.jpg" } 5).2.movies,
      m2.id = (customRow emptyDB 1 duneDraft 0).id ∧
      m2.poster = (customRow emptyDB 1 duneDraft 0).poster :=
  c9_poster_immutable.1 (MoviesService.createCustomMovie emptyDB 1 duneDraft 0).2 1 0
    { title := some "Tenet", poster := some "sneaky.jpg" } 5
    (customRow emptyDB 1 duneDraft 0) (by decide)

/-! ## Claim C2 (amended) -/

/-- Replacing the (user, movie) link row with a row whose stored key is
re-derived from the movie's title preserves the effective-title
invariant. -/
theorem effInv_map_replace (db : DB) (u mid : Nat) (row : UserMovieRow)
    (hmid : row.movieId = mid)
    (heff : ∀ m ∈ db.movies, m.id = mid →
      row.effectiveNormalizedTitle = sqlNormalizeTitle (row.overriddenTitle.getD m.title))
    (hinv : EffInv db) :
    EffInv { db with userMovies := (db.userMovies.map
      (fun um => if um.userId == u && um.movieId == mid then row else um)) } := by
  intro um hum m hm hid
  simp only [List.mem_map] at hum
  obtain ⟨um0, hum0, hfum⟩ := hum
  by_cases hc : (um0.userId == u && um0.movieId == mid) = true
  · simp only [hc, if_true] at hfum
    subst hfum
    exact heff m hm (by rw [← hid, hmid])
  · simp only [hc, if_false] at hfum
    subst hfum
    exact hinv um0 hum0 m hm hid

/-- Appending a link whose stored key matches its movie preserves the
effective-title invariant. -/
theorem effInv_append_link (db : DB) (row : UserMovieRow)
    (heff : ∀ m ∈ db.movies, m.id = row.movieId →
      row.effectiveNormalizedTitle = sqlNormalizeTitle (row.overriddenTitle.getD m.title))
    (hinv : EffInv db) :
    EffInv { db with userMovies := (db.userMovies ++ [row]) } := by
  intro um hum m hm hid
  rw [List.mem_append] at hum
  cases hum with
  | inl h => exact hinv um h m hm hid
  | inr h =>
    rw [List.mem_singleton] at h
    subst h
    exact heff m hm hid.symm

/-- Appending a movie row no link references preserves the effective-title
invariant. -/
theorem effInv_append_movie (db : DB) (rowm : MovieRow) (n : Nat)
    (hfresh : ∀ um ∈ db.userMovies, um.movieId ≠ rowm.id)
    (hinv : EffInv db) :
    EffInv { db with movies := (db.movies ++ [rowm]), nextId := n } := by
  intro um hum m hm hid
  rw [List.mem_append] at hm
  cases hm with
  | inl h => exact hinv um hum m h hid
  | inr h =>
    rw [List.mem_singleton] at h
    subst h
    exact absurd hid (hfresh um hum)

/-- `UserMoviesRepository.create` preserves the effective-title invariant:
the BEFORE INSERT trigger derives the stored key from the linked movie's
current title. -/
theorem effInv_userCreate (db : DB)
    (hidu : ∀ m ∈ db.movies, ∀ m2 ∈ db.movies, m.id = m2.id → m = m2)
    (hinv : EffInv db) (u mid : Nat) (fav : Bool) (now : Nat) :
    EffInv (exceptState db (UserMoviesRepository.create db u mid fav now)) := by
  unfold UserMoviesRepository.create
  cases hm : db.movies.find? (fun m => m.id == mid) with
  | none => exact hinv
  | some m =>
    cases hpk : db.userMovies.any (fun um => um.userId == u && um.movieId == mid) with
    | true => simp only [hpk, if_true]; exact hinv
    | false =>
      cases hun : db.userMovies.any (fun um => um.userId == u &&
          lowerString um.effectiveNormalizedTitle ==
            lowerString (sqlNormalizeTitle m.title)) with
      | true => simp only [hpk, hun, Bool.false_eq_true, if_false, if_true]; exact hinv
      | false =>
        simp only [hpk, hun, Bool.false_eq_true, if_false]
        refine effInv_append_link db _ (fun m2 hm2 hid2 => ?_) hinv
        have hmem := List.mem_of_find?_eq_some hm
        have hp := List.find?_some hm
        rw [beq_iff_eq] at hp
        have he : m2 = m := hidu m2 hm2 m hmem (by rw [hid2, hp])
        subst he
        rfl

/-- `UserMoviesRepository.updateOverrides` preserves the effective-title
invariant: the BEFORE UPDATE trigger recomputes the stored key from the
new override title and the movie's current title. -/
theorem effInv_updateOverrides (db : DB)
    (hidu : ∀ m ∈ db.movies, ∀ m2 ∈ db.movies, m.id = m2.id → m = m2)
    (hinv : EffInv db) (u mid : Nat) (p : UserMoviesRepository.OverridePatch) (now : Nat) :
    EffInv (exceptState db (UserMoviesRepository.updateOverrides db u mid p now)) := by
  unfold UserMoviesRepository.updateOverrides
  split
  · exact hinv
  · split
    · exact hinv
    · rename_i old hfm
      split
      · exact hinv
      · rename_i m hm
        split
        · exact hinv
        · have hmem := List.mem_of_find?_eq_some hm
          have hp := List.find?_some hm
          rw [beq_iff_eq] at hp
          have hold := List.find?_some hfm
          simp only [Bool.and_eq_true, beq_iff_eq] at hold
          refine effInv_map_replace db u mid (UserMoviesRepository.overridesRow old m p now) hold.2
            (fun m2 hm2 hid2 => ?_) hinv
          have he : m2 = m := hidu m2 hm2 m hmem (by rw [hid2, hp])
          subst he
          rfl

/-- `UserMoviesRepository.setFavorite` preserves the effective-title
invariant (its UPDATE also fires the trigger). -/
theorem effInv_repoSetFavorite (db : DB)
    (hidu : ∀ m ∈ db.movies, ∀ m2 ∈ db.movies, m.id = m2.id → m = m2)
    (hinv : EffInv db) (u mid : Nat) (fav : Bool) (now : Nat) :
    EffInv (exceptState db (UserMoviesRepository.setFavorite db u mid fav now)) := by
  unfold UserMoviesRepository.setFavorite
  split
  · exact hinv
  · rename_i old hfm
    split
    · exact hinv
    · rename_i m hm
      split
      · exact hinv
      · have hmem := List.mem_of_find?_eq_some hm
        have hp := List.find?_some hm
        rw [beq_iff_eq] at hp
        have hold := List.find?_some hfm
        simp only [Bool.and_eq_true, beq_iff_eq] at hold
        refine effInv_map_replace db u mid (UserMoviesRepository.favoriteRow old m fav now) hold.2
          (fun m2 hm2 hid2 => ?_) hinv
        have he : m2 = m := hidu m2 hm2 m hmem (by rw [hid2, hp])
        subst he
        rfl



/-- Movie-id uniqueness survives appending a row carrying the fresh id. -/
theorem idsUnique_append_fresh (db : DB) (rowm : MovieRow) (hrow : rowm.id = db.nextId)
    (hmf : ∀ m ∈ db.movies, m.id < db.nextId)
    (hidu : ∀ m ∈ db.movies, ∀ m2 ∈ db.movies, m.id = m2.id → m = m2) :
    ∀ m ∈ db.movies ++ [rowm], ∀ m2 ∈ db.movies ++ [rowm], m.id = m2.id → m = m2 := by
  intro m hm m2 hm2 hid
  rw [List.mem_append, List.mem_singleton] at hm hm2
  cases hm with
  | inl h1 =>
    cases hm2 with
    | inl h2 => exact hidu m h1 m2 h2 hid
    | inr h2 =>
      subst h2
      exact absurd (hid ▸ hrow ▸ hmf m h1) (lt_irrefl _)
  | inr h1 =>
    subst h1
    cases hm2 with
    | inl h2 => exact absurd (hrow ▸ hid ▸ hmf m2 h2) (lt_irrefl _)
    | inr h2 => rw [h2]

/-- `createCustomMovie` preserves the effective-title invariant on every
path, including the non-atomic failure path that leaves an orphaned
movie row. -/
theorem effInv_createCustomMovie (db : DB) (hwf : DBWf db) (hinv : EffInv db)
    (u : Nat) (d : MoviesService.CreateMovieRequest) (now : Nat) :
    EffInv (MoviesService.createCustomMovie db u d now).2 := by
  cases hval : MoviesService.validCreate d with
  | false =>
    simp only [MoviesService.createCustomMovie, hval, Bool.not_false, if_true]
    exact hinv
  | true =>
    cases hf : UserMoviesRepository.findByUserAndEffectiveTitle db u
        (normalizeTitle (jsTrim d.title)) with
    | some um =>
      simp only [MoviesService.createCustomMovie, hval, Bool.not_true, Bool.false_eq_true,
        if_false, hf]
      exact hinv
    | none =>
      have hrepo : MoviesRepository.create db
          { title := jsTrim d.title, normalizedTitle := normalizeTitle (jsTrim d.title),
            year := some d.year, runtimeMinutes := some d.runtimeMinutes,
            genre := some d.genre, director := some d.director,
            poster := (if d.poster == some "" then none else d.poster),
            source := .custom, createdByUserId := some u } now =
          (customRow db u d now,
            { db with
              movies := (db.movies ++ [customRow db u d now]),
              nextId := db.nextId + 1 }) := rfl
      simp only [MoviesService.createCustomMovie, hval, Bool.not_true, Bool.false_eq_true,
        if_false, hf, hrepo]
      have hinv1 : EffInv
          { db with
            movies := (db.movies ++ [customRow db u d now]),
            nextId := db.nextId + 1 } :=
        effInv_append_movie db (customRow db u d now) (db.nextId + 1)
          (fun um hum => Nat.ne_of_lt (hwf.linksFresh um hum)) hinv
      have hidu1 := idsUnique_append_fresh db (customRow db u d now) rfl
        hwf.moviesFresh hwf.idsUnique
      have h := effInv_userCreate
        { db with
          movies := (db.movies ++ [customRow db u d now]),
          nextId := db.nextId + 1 }
        hidu1 hinv1 u (customRow db u d now).id false now
      cases hcr : UserMoviesRepository.create
          { db with
            movies := (db.movies ++ [customRow db u d now]),
            nextId := db.nextId + 1 }
          u (customRow db u d now).id false now with
      | error e => exact hinv1
      | ok x =>
        rw [hcr] at h
        exact h

/-- The service `setFavorite` preserves the effective-title invariant on
every path. -/
theorem effInv_setFavoriteSvc (db : DB) (hwf : DBWf db) (hinv : EffInv db)
    (u mid : Nat) (fav : Bool) (now : Nat) :
    EffInv (MoviesService.setFavorite db u mid fav now).2 := by
  unfold MoviesService.setFavorite
  split
  · have h := effInv_repoSetFavorite db hwf.idsUnique hinv u mid fav now
    cases hcr : UserMoviesRepository.setFavorite db u mid fav now with
    | error e => exact hinv
    | ok x =>
      rw [hcr] at h
      exact h
  · split
    · exact hinv
    · rename_i movie hmovie
      simp only []
      cases hfe : UserMoviesRepository.findByUserAndEffectiveTitle db u
          (normalizeTitle movie.title) with
      | some um => exact hinv
      | none =>
        have h := effInv_userCreate db hwf.idsUnique hinv u mid fav now
        cases hcr : UserMoviesRepository.create db u mid fav now with
        | error e => exact hinv
        | ok x =>
          rw [hcr] at h
          exact h

/-- `updateMovie` on a movie the caller does not own (the override branch)
preserves the effective-title invariant. -/
theorem effInv_updateMovie_override (db : DB) (hwf : DBWf db) (hinv : EffInv db)
    (u mid : Nat) (p : MoviesService.UpdateMovieRequest) (now : Nat)
    (hno : ∀ m, MoviesRepository.findById db mid = some m →
      ¬(m.source = Source.custom ∧ m.createdByUserId = some u)) :
    EffInv (MoviesService.updateMovie db u mid p now).2 := by
  unfold MoviesService.updateMovie
  split
  · exact hinv
  · split
    · exact hinv
    · rename_i movie hmov
      rw [if_neg (hno movie hmov)]
      split
      · exact hinv
      · have h := effInv_updateOverrides db hwf.idsUnique hinv u mid
          (MoviesService.toOverridePatch (p.title.map jsTrim) p) now
        cases hcr : UserMoviesRepository.updateOverrides db u mid
            (MoviesService.toOverridePatch (p.title.map jsTrim) p) now with
        | error e => exact hinv
        | ok x =>
          rw [hcr] at h
          exact h



/-- Claim C2 amended: in a well-formed state satisfying the invariant, the
stored effective normalized title equals the SQL trigger function
`normalize_title` (the spec 4.1 algorithm) of the override title (when
present) or the movie's title, and this is preserved by every operation
that creates a link or changes its title override: `createCustomMovie`,
`setFavorite` (both the in-place flag update and the link creation), the
override write `updateOverrides`, and `updateMovie` on a movie the caller
does not own.  It is **not** an invariant of the whole system: `updateMovie`
on an owned custom movie edits the canonical title without touching the
link, leaving the stored key stale (see the counterexample). -/
theorem c2_amended (db : DB) (hwf : DBWf db) (hinv : EffInv db) :
    (∀ u d now, EffInv (MoviesService.createCustomMovie db u d now).2) ∧
    (∀ u mid fav now, EffInv (MoviesService.setFavorite db u mid fav now).2) ∧
    (∀ u mid p now,
      EffInv (exceptState db (UserMoviesRepository.updateOverrides db u mid p now))) ∧
    (∀ u mid p now,
      (∀ m, MoviesRepository.findById db mid = some m →
        ¬(m.source = Source.custom ∧ m.createdByUserId = some u)) →
      EffInv (MoviesService.updateMovie db u mid p now).2) :=
  ⟨fun u d now => effInv_createCustomMovie db hwf hinv u d now,
   fun u mid fav now => effInv_setFavoriteSvc db hwf hinv u mid fav now,
   fun u mid p now => effInv_updateOverrides db hwf.idsUnique hinv u mid p now,
   fun u mid p now hno => effInv_updateMovie_override db hwf hinv u mid p now hno⟩

/-- Claim C2 amended, witness at the state where user 1 owns the custom
movie `"Dune"` with its initial link. -/
theorem c2_amended_witness :
    (∀ u d now, EffInv (MoviesService.createCustomMovie
      (MoviesService.createCustomMovie emptyDB 1 duneDraft 0).2 u d now).2) ∧
    (∀ u mid fav now, EffInv (MoviesService.setFavorite
      (MoviesService.createCustomMovie emptyDB 1 duneDraft 0).2 u mid fav now).2) ∧
    (∀ u mid p now,
      EffInv (exceptState (MoviesService.createCustomMovie emptyDB 1 duneDraft 0).2
        (UserMoviesRepository.updateOverrides
          (MoviesService.createCustomMovie emptyDB 1 duneDraft 0).2 u mid p now))) ∧
    (∀ u mid p now,
      (∀ m, MoviesRepository.findById
          (MoviesService.createCustomMovie emptyDB 1 duneDraft 0).2 mid = some m →
        ¬(m.source = Source.custom ∧ m.createdByUserId = some u)) →
      EffInv (MoviesService.updateMovie
        (MoviesService.createCustomMovie emptyDB 1 duneDraft 0).2 u mid p now).2) :=
  c2_amended (MoviesService.createCustomMovie emptyDB 1 duneDraft 0).2
    ⟨by decide, by decide, by decide⟩ (by unfold EffInv; decide)

end MoviesApi
